import Mathlib

/-! # Chatter-Cuffs walkie-talkie: the audio flow coordinator

A shallow embedding of `walkie-talkie/src/Application.cpp` (class `Application`
of `Application.h`) and theorems about it.

* Machine integers are `Nat`/`Int` with explicit wrap-around: `uint8_t` values
  are reduced modulo `2^8`, `unsigned long` values (32 bits on the ESP32)
  modulo `2^32`, `int16_t`/`int32_t` values are reduced to the balanced range.
* The devices the coordinator owns (Output, Sampler, Transport, IndicatorLed,
  OutputBuffer, the GPIO pins, the clock) are external. Calls that command a
  device are recorded, in program order, as `Event`s of a trace; calls that
  return a value from outside (`digitalRead`, `millis`, `I2SSampler::read`,
  `OutputBuffer::remove_samples`) take their answer from an `Env`, which gives
  an arbitrary answer for each successive query.
* `Application::loop` never returns. It is embedded as a transition function
  `loop_step` on `State`: one transition runs the code between two consecutive
  control points (the top of `while (true)` and the two inner loop heads).
* `Serial` logging is not recorded.
-/

namespace WalkieTalkie

/-! ## Machine integers -/

/-- Conversion to `uint8_t`: reduction modulo `2^8`. -/
def u8 (x : Int) : Nat := (x % 256).toNat

/-- Conversion to `unsigned long` (32 bits on the target): reduction modulo `2^32`. -/
def u32 (x : Int) : Nat := (x % 4294967296).toNat

/-- Conversion to `int16_t`: the representative in `[-32768, 32767]`. -/
def i16 (x : Int) : Int := (x + 32768) % 65536 - 32768

/-- Conversion to `int32_t`: the representative in `[-2^31, 2^31 - 1]`. -/
def i32 (x : Int) : Int := (x + 2147483648) % 4294967296 - 2147483648

/-! ## Configuration, environment, events -/

/-- The digital pins the coordinator reads or writes. -/
inductive Pin where
  | GPIO_TRANSMIT_BUTTON
  | GPIO_VOLUME_UP_BUTTON
  | GPIO_VOLUME_DOWN_BUTTON
  | GPIO_CHANNEL_UP_BUTTON
  | GPIO_CHANNEL_DOWN_BUTTON
  | I2S_SPEAKER_SD_PIN
  deriving DecidableEq, Repr

/-- Compile-time constants and switches of `config.h`. That header is not among
the sources, so its values are parameters of the embedding. -/
structure Config where
  /-- Constant `SAMPLE_RATE`, passed to `Output::start`. -/
  SAMPLE_RATE : Nat
  /-- Constant `I2S_SPEAKER_SD_PIN`; `-1` when the board has no speaker-enable line. -/
  I2S_SPEAKER_SD_PIN : Int
  /-- Constant `ESP_NOW_WIFI_CHANNEL`, the channel the constructor starts on. -/
  ESP_NOW_WIFI_CHANNEL : Int
  /-- Constant `ESP_NOW_CHANNEL_MIN`. -/
  ESP_NOW_CHANNEL_MIN : Int
  /-- Constant `ESP_NOW_CHANNEL_MAX`. -/
  ESP_NOW_CHANNEL_MAX : Int
  /-- Whether `USE_ESP_NOW` is defined. -/
  USE_ESP_NOW : Bool
  deriving DecidableEq, Repr

/-- Answers of the outside world. Every query of the program takes the answer
at the current query index `State.tick` and advances the index by one, so an
`Env` fixes an arbitrary answer for each successive query. -/
structure Env where
  /-- Result of `digitalRead(pin)`, nonzero read as `true`. -/
  digitalRead : Nat → Pin → Bool
  /-- Result of `millis()`; the value is reduced to 32 bits where it is read. -/
  millis : Nat → Nat
  /-- Result of `m_input->read(samples, 128)`: the returned count and the samples the
  sampler stores, in order from `samples[0]`. -/
  read : Nat → Int × List Int
  /-- Result of `m_output_buffer->remove_samples(samples, 128)`: the samples stored, in
  order from `samples[0]`. -/
  remove_samples : Nat → List Int
  /-- Whether `WiFi.waitForConnectResult()` reports `WL_CONNECTED`. -/
  wifi_connected : Bool

/-- Calls that command an external device, as recorded in the trace. -/
inductive Event where
  | set_default_color (color : Nat)
  | set_is_flashing (flashing : Bool) (color : Nat)
  | indicator_begin
  | wifi_mode_sta
  | wifi_begin
  | wifi_set_sleep_none
  | wifi_disconnect
  | delay (ms : Nat)
  | esp_restart
  | pinMode_input_pulldown (pin : Pin)
  | digitalWrite (pin : Pin) (high : Bool)
  | output_start (sample_rate : Nat)
  | output_stop
  | output_write (samples : List Int) (count : Nat)
  | output_buffer_flush
  | output_buffer_remove_samples (count : Nat)
  | input_start
  | input_stop
  | input_read (count : Nat)
  | transport_begin
  | transport_add_sample (sample : Int)
  | transport_flush
  | transport_change_channel (channel : Nat)
  deriving DecidableEq, Repr

/-! ## Coordinator state -/

/-- The data members of `Application` that are not device pointers. -/
structure Application where
  m_volume_level : Nat
  m_last_volume_button_time : Nat
  m_current_channel : Nat
  m_last_channel_button_time : Nat
  deriving DecidableEq, Repr

/-- Control point of `Application::loop`. -/
inductive Mode where
  /-- At the top of `while (true)`, before the transmit button is read. -/
  | top
  /-- At the head of the transmit loop; `start_time` is the local of line 142. -/
  | transmitting (start_time : Nat)
  /-- At the head of the receive loop; `start_time` is the local of line 167. -/
  | receiving (start_time : Nat)
  /-- The device rebooted (`ESP.restart()` in `begin`); nothing runs. -/
  | halted
  deriving DecidableEq, Repr

/-- Whole state of the embedding. -/
structure State where
  app : Application
  /-- Contents of the 128-sample buffer `samples` of `loop`. -/
  samples : List Int
  mode : Mode
  /-- Index of the next query to the environment. -/
  tick : Nat
  /-- Device calls made so far, oldest first. -/
  trace : List Event
  deriving DecidableEq, Repr

/-- Record device calls. -/
def State.emit (s : State) (es : List Event) : State :=
  { s with trace := s.trace ++ es }

/-- Advance the query index after a query. -/
def State.next (s : State) : State :=
  { s with tick := s.tick + 1 }

/-- The 128 `int16_t` cells of `samples` after an external producer stored
`xs` from index 0: cell `i` holds `xs[i]` narrowed to 16 bits, cells the
producer did not reach keep their old content. -/
def store_chunk (old xs : List Int) : List Int :=
  (List.range 128).map (fun i => i16 ((xs.get? i).getD (old.getD i 0)))

/-! ## `Application::Application` -/

/-- Constructor, lines 28-38: initial values of the data members. The device
objects it creates and the calls it makes on them (`set_header`, `pinMode` of
the speaker-enable pin) come before the trace starts. -/
def Application.init (cfg : Config) : Application :=
  { m_volume_level := 50
    m_last_volume_button_time := 0
    m_current_channel := u8 cfg.ESP_NOW_WIFI_CHANNEL
    m_last_channel_button_time := 0 }

/-! ## `Application::handle_volume_buttons` -/

/-- Constant `VOLUME_MIN` of `Application.h`. -/
def VOLUME_MIN : Nat := 0

/-- Constant `VOLUME_MAX` of `Application.h`. -/
def VOLUME_MAX : Nat := 100

/-- Constant `VOLUME_BUTTON_DEBOUNCE_MS` of `Application.h`. -/
def VOLUME_BUTTON_DEBOUNCE_MS : Nat := 200

/-- Constant `CHANNEL_BUTTON_DEBOUNCE_MS` of `Application.h`. -/
def CHANNEL_BUTTON_DEBOUNCE_MS : Nat := 200

/-- Lines 204-211: the body of `if (digitalRead(GPIO_VOLUME_UP_BUTTON))`. -/
def volume_up (current_time : Nat) (a : Application) : Application :=
  if a.m_volume_level < VOLUME_MAX then
    let v := u8 ((a.m_volume_level : Int) + 5)
    let v := if v > VOLUME_MAX then VOLUME_MAX else v
    { a with m_volume_level := v, m_last_volume_button_time := current_time }
  else a

/-- Lines 217-224: the body of `if (digitalRead(GPIO_VOLUME_DOWN_BUTTON))`.
The level is a `uint8_t`, so `m_volume_level -= 5` wraps modulo `2^8`, and the
comparison `m_volume_level < VOLUME_MIN` is made on the wrapped value. -/
def volume_down (current_time : Nat) (a : Application) : Application :=
  if a.m_volume_level > VOLUME_MIN then
    let v := u8 ((a.m_volume_level : Int) - 5)
    let v := if v < VOLUME_MIN then VOLUME_MIN else v
    { a with m_volume_level := v, m_last_volume_button_time := current_time }
  else a

/-- Method `Application::handle_volume_buttons`, lines 191-226. -/
def handle_volume_buttons (env : Env) (s : State) : State :=
  let current_time := u32 (env.millis s.tick)
  let s := s.next
  if u32 ((current_time : Int) - s.app.m_last_volume_button_time)
      < VOLUME_BUTTON_DEBOUNCE_MS then
    s
  else
    let up := env.digitalRead s.tick Pin.GPIO_VOLUME_UP_BUTTON
    let s := s.next
    let s := if up then { s with app := volume_up current_time s.app } else s
    let down := env.digitalRead s.tick Pin.GPIO_VOLUME_DOWN_BUTTON
    let s := s.next
    if down then { s with app := volume_down current_time s.app } else s

/-! ## `Application::apply_volume_to_samples` -/

/-- Lines 240-246, the body of the scaling loop for one sample: the product is
formed in `int32_t`, divided by 100 with C++ truncation toward zero, clamped to
the 16-bit range and narrowed to `int16_t`. -/
def scale_sample (m_volume_level : Nat) (sample : Int) : Int :=
  let scaled_sample := i32 (Int.tdiv (i32 (i32 sample * (m_volume_level : Int))) 100)
  let scaled_sample := if scaled_sample > 32767 then 32767 else scaled_sample
  let scaled_sample := if scaled_sample < -32768 then -32768 else scaled_sample
  i16 scaled_sample

/-- Method `Application::apply_volume_to_samples`, lines 228-248. The chunk behind the
pointer `samples` is a list; the loop runs `i` over `0, ..., count - 1` and
rewrites cell `i`. Cells at or beyond the end of the list are outside the
embedding: `List.set` leaves the list as it is there. -/
def apply_volume_to_samples (m_volume_level : Nat) (samples : List Int) (count : Int) :
    List Int :=
  if m_volume_level = 100 then
    samples
  else
    (List.range count.toNat).foldl
      (fun buf i => buf.set i (scale_sample m_volume_level (buf.getD i 0))) samples

/-! ## `Application::change_channel` and `Application::handle_channel_buttons` -/

/-- Method `Application::change_channel`, lines 281-314. `new_channel` is the
`uint8_t` parameter. The transport pointer is the object the constructor
allocated, so the null check of line 306 passes. Lines 303-313 are compiled
only when `USE_ESP_NOW` is defined. -/
def change_channel (cfg : Config) (new_channel : Nat) (s : State) : State :=
  if (new_channel : Int) < cfg.ESP_NOW_CHANNEL_MIN
      ∨ (new_channel : Int) > cfg.ESP_NOW_CHANNEL_MAX then
    s
  else if new_channel = s.app.m_current_channel then
    s
  else
    let s := s.emit [Event.set_is_flashing true 0x0000ff]
    let s := { s with app := { s.app with m_current_channel := new_channel } }
    if cfg.USE_ESP_NOW then
      let s := s.emit [Event.transport_change_channel new_channel]
      s.emit [Event.set_is_flashing false 0x0000ff]
    else
      s

/-- Lines 263-267: the body of `if (digitalRead(GPIO_CHANNEL_UP_BUTTON))`. -/
def channel_up (cfg : Config) (current_time : Nat) (s : State) : State :=
  if (s.app.m_current_channel : Int) < cfg.ESP_NOW_CHANNEL_MAX then
    let s := change_channel cfg (u8 ((s.app.m_current_channel : Int) + 1)) s
    { s with app := { s.app with m_last_channel_button_time := current_time } }
  else s

/-- Lines 273-277: the body of `if (digitalRead(GPIO_CHANNEL_DOWN_BUTTON))`. -/
def channel_down (cfg : Config) (current_time : Nat) (s : State) : State :=
  if (s.app.m_current_channel : Int) > cfg.ESP_NOW_CHANNEL_MIN then
    let s := change_channel cfg (u8 ((s.app.m_current_channel : Int) - 1)) s
    { s with app := { s.app with m_last_channel_button_time := current_time } }
  else s

/-- Method `Application::handle_channel_buttons`, lines 250-279. -/
def handle_channel_buttons (cfg : Config) (env : Env) (s : State) : State :=
  let current_time := u32 (env.millis s.tick)
  let s := s.next
  if u32 ((current_time : Int) - s.app.m_last_channel_button_time)
      < CHANNEL_BUTTON_DEBOUNCE_MS then
    s
  else
    let up := env.digitalRead s.tick Pin.GPIO_CHANNEL_UP_BUTTON
    let s := s.next
    let s := if up then channel_up cfg current_time s else s
    let down := env.digitalRead s.tick Pin.GPIO_CHANNEL_DOWN_BUTTON
    let s := s.next
    if down then channel_down cfg current_time s else s

/-! ## `Application::begin` -/

/-- Method `Application::begin`, lines 71-123, run on the freshly constructed object.
Without `USE_ESP_NOW` a failed connection reboots the device and nothing else
runs; otherwise the last statement creates the task that runs `loop`, whose
first control point is `Mode.top`. `junk` is the content of the buffer that
`loop` obtains from `malloc` (line 128). -/
def begin (cfg : Config) (env : Env) (junk : List Int) : State :=
  let s : State :=
    { app := Application.init cfg
      samples := store_chunk [] junk
      mode := Mode.halted
      tick := 0
      trace := [] }
  let s := s.emit [Event.set_default_color 0, Event.set_is_flashing true 0xff0000,
    Event.indicator_begin, Event.wifi_mode_sta]
  let connect : State × Bool :=
    if cfg.USE_ESP_NOW then
      (s.emit [Event.wifi_disconnect], true)
    else
      let s := s.emit [Event.wifi_begin]
      if env.wifi_connected then
        (s.emit [Event.wifi_set_sleep_none], true)
      else
        (s.emit [Event.delay 5000, Event.esp_restart], false)
  let s := connect.1
  if connect.2 then
    let s := s.emit [Event.transport_begin, Event.set_default_color 0x00ff00,
      Event.set_is_flashing false 0x00ff00,
      Event.pinMode_input_pulldown Pin.GPIO_TRANSMIT_BUTTON,
      Event.pinMode_input_pulldown Pin.GPIO_VOLUME_UP_BUTTON,
      Event.pinMode_input_pulldown Pin.GPIO_VOLUME_DOWN_BUTTON,
      Event.pinMode_input_pulldown Pin.GPIO_CHANNEL_UP_BUTTON,
      Event.pinMode_input_pulldown Pin.GPIO_CHANNEL_DOWN_BUTTON,
      Event.output_start cfg.SAMPLE_RATE, Event.output_buffer_flush]
    { s with mode := Mode.top }
  else
    s

/-! ## `Application::loop` -/

/-- Lines 135-142: entry into the transmit burst, up to the head of the
transmit loop. -/
def transmit_entry (env : Env) (s : State) : State :=
  let s := s.emit [Event.set_is_flashing true 0xff0000, Event.output_stop, Event.input_start]
  let start_time := u32 (env.millis s.tick)
  let s := s.next
  { s with mode := Mode.transmitting start_time }

/-- Line 143: the condition `millis() - start_time < 1000 ||
digitalRead(GPIO_TRANSMIT_BUTTON)`. The button is read only when the first
disjunct is false. -/
def transmit_cond (env : Env) (start_time : Nat) (s : State) : Bool × State :=
  let now := u32 (env.millis s.tick)
  let s := s.next
  if u32 ((now : Int) - start_time) < 1000 then
    (true, s)
  else
    (env.digitalRead s.tick Pin.GPIO_TRANSMIT_BUTTON, s.next)

/-- Lines 148-151: `for (int i = 0; i < samples_read; i++)
m_transport->add_sample(samples[i])`. An index past the 128 cells is outside
the embedding; `0` stands for the value read there. -/
def forward_samples (samples : List Int) (samples_read : Int) : List Event :=
  (List.range samples_read.toNat).map
    (fun i => Event.transport_add_sample (samples.getD i 0))

/-- Lines 145-151: one iteration of the transmit loop. -/
def transmit_body (env : Env) (s : State) : State :=
  let r := env.read s.tick
  let s := s.next
  let s := { s with samples := store_chunk s.samples r.2 }
  let s := s.emit [Event.input_read 128]
  let samples_read := i32 r.1
  s.emit (forward_samples s.samples samples_read)

/-- Lines 153-159: leaving the transmit burst. -/
def transmit_exit (cfg : Config) (s : State) : State :=
  s.emit [Event.transport_flush, Event.set_is_flashing false 0xff0000,
    Event.input_stop, Event.output_start cfg.SAMPLE_RATE]

/-- Lines 163-166 (`high = true`) and 183-186 (`high = false`):
`if (I2S_SPEAKER_SD_PIN != -1) digitalWrite(I2S_SPEAKER_SD_PIN, ...)`, as the
list of device calls made. -/
def speaker_sd_write (cfg : Config) (high : Bool) : List Event :=
  if cfg.I2S_SPEAKER_SD_PIN ≠ -1 then
    [Event.digitalWrite Pin.I2S_SPEAKER_SD_PIN high]
  else []

/-- Lines 162-167: entry into receiving, up to the head of the receive loop. -/
def receive_entry (cfg : Config) (env : Env) (s : State) : State :=
  let s := s.emit (speaker_sd_write cfg true)
  let start_time := u32 (env.millis s.tick)
  let s := s.next
  { s with mode := Mode.receiving start_time }

/-- Line 168: the condition `millis() - start_time < 1000 ||
!digitalRead(GPIO_TRANSMIT_BUTTON)`. The button is read only when the first
disjunct is false. -/
def receive_cond (env : Env) (start_time : Nat) (s : State) : Bool × State :=
  let now := u32 (env.millis s.tick)
  let s := s.next
  if u32 ((now : Int) - start_time) < 1000 then
    (true, s)
  else
    (!env.digitalRead s.tick Pin.GPIO_TRANSMIT_BUTTON, s.next)

/-- Lines 170-181: one iteration of the receive loop. -/
def receive_body (cfg : Config) (env : Env) (s : State) : State :=
  let s := handle_volume_buttons env s
  let s := handle_channel_buttons cfg env s
  let chunk := env.remove_samples s.tick
  let s := s.next
  let s := { s with samples := store_chunk s.samples chunk }
  let s := s.emit [Event.output_buffer_remove_samples 128]
  let s := { s with samples := apply_volume_to_samples s.app.m_volume_level s.samples 128 }
  s.emit [Event.output_write s.samples 128]

/-- Lines 183-187: leaving the receive loop, back to the top of `while (true)`. -/
def receive_exit (cfg : Config) (s : State) : State :=
  let s := s.emit (speaker_sd_write cfg false)
  { s with mode := Mode.top }

/-- One transition of `Application::loop`, lines 130-188, from the control
point `s.mode` to the next control point reached.
* `Mode.top`: line 133 reads the transmit button; if active the burst is
  entered, otherwise receiving is entered.
* `Mode.transmitting`: line 143 is evaluated; if true one iteration of the
  transmit loop runs, otherwise the burst is left and receiving is entered.
* `Mode.receiving`: line 168 is evaluated; if true one iteration of the receive
  loop runs, otherwise the loop is left for the top of `while (true)`. -/
def loop_step (cfg : Config) (env : Env) (s : State) : State :=
  match s.mode with
  | Mode.halted => s
  | Mode.top =>
    let pressed := env.digitalRead s.tick Pin.GPIO_TRANSMIT_BUTTON
    let s := s.next
    if pressed then transmit_entry env s else receive_entry cfg env s
  | Mode.transmitting start_time =>
    let c := transmit_cond env start_time s
    if c.1 then transmit_body env c.2
    else receive_entry cfg env (transmit_exit cfg c.2)
  | Mode.receiving start_time =>
    let c := receive_cond env start_time s
    if c.1 then receive_body cfg env c.2
    else receive_exit cfg c.2

/-- The method `Application::loop`, lines 126-189, observed after `n`
transitions: `loop` does not return, and `loop cfg env n s` is the state it has
reached from `s` once it has passed `n` control points. -/
def loop (cfg : Config) (env : Env) (n : Nat) (s : State) : State :=
  (loop_step cfg env)^[n] s

/-- Whether a control point is the head of the transmit loop. -/
def Mode.is_transmitting : Mode → Bool
  | Mode.transmitting _ => true
  | _ => false

/-- Whether a control point is the head of the receive loop. -/
def Mode.is_receiving : Mode → Bool
  | Mode.receiving _ => true
  | _ => false

/-! ## Device status read off a trace -/

/-- Whether the Output device is started after the calls of `tr`: the last
`start`/`stop` call made on it is a `start`. -/
def output_started (tr : List Event) : Bool :=
  tr.foldl (fun b e =>
    match e with
    | Event.output_start _ => true
    | Event.output_stop => false
    | _ => b) false

/-- Whether the Sampler is started after the calls of `tr`: the last
`start`/`stop` call made on it is a `start`. -/
def sampler_started (tr : List Event) : Bool :=
  tr.foldl (fun b e =>
    match e with
    | Event.input_start => true
    | Event.input_stop => false
    | _ => b) false

/-- Position in the cycle of start/stop calls on the two audio devices. -/
inductive Phase where
  /-- No start or stop call yet. -/
  | fresh
  /-- Output started, Sampler not. -/
  | playing
  /-- Output just stopped, Sampler not started. -/
  | output_stopped
  /-- Sampler started, Output stopped. -/
  | capturing
  /-- Sampler just stopped, Output not yet restarted. -/
  | sampler_stopped
  /-- A start or stop call came out of turn. -/
  | bad
  deriving DecidableEq, Repr

/-- Effect of one device call on the phase: start and stop calls advance the
cycle when they come in turn and lead to `bad` otherwise; other calls leave
the phase as it is. -/
def Phase.next (p : Phase) (e : Event) : Phase :=
  match e with
  | Event.output_start _ =>
    (match p with
     | Phase.fresh => Phase.playing
     | Phase.sampler_stopped => Phase.playing
     | _ => Phase.bad)
  | Event.output_stop =>
    (match p with
     | Phase.playing => Phase.output_stopped
     | _ => Phase.bad)
  | Event.input_start =>
    (match p with
     | Phase.output_stopped => Phase.capturing
     | _ => Phase.bad)
  | Event.input_stop =>
    (match p with
     | Phase.capturing => Phase.sampler_stopped
     | _ => Phase.bad)
  | _ => p

/-- Whether a call starts or stops one of the two audio devices. -/
def Event.is_switch : Event → Bool
  | Event.output_start _ => true
  | Event.output_stop => true
  | Event.input_start => true
  | Event.input_stop => true
  | _ => false

/-- Phase reached from `p` by the calls of `tr`. -/
def phase_after (p : Phase) (tr : List Event) : Phase :=
  tr.foldl Phase.next p

/-- Whether the Output device is started in a phase. -/
def Phase.output_on : Phase → Bool
  | Phase.playing => true
  | _ => false

/-- Whether the Sampler is started in a phase. -/
def Phase.sampler_on : Phase → Bool
  | Phase.capturing => true
  | _ => false

/-- Phase the devices are in at each control point of `loop`. -/
def Mode.phase : Mode → Phase
  | Mode.top => Phase.playing
  | Mode.transmitting _ => Phase.capturing
  | Mode.receiving _ => Phase.playing
  | Mode.halted => Phase.fresh

/-! ## Sample inputs -/

/-- Sample values for the constants of `config.h`, which is not among the
sources: the channel range is the reference range 1-11, the sample rate, the
speaker-enable pin and the default channel are arbitrary. Only the concrete
instances below use it; the theorems hold for every `Config`. -/
def sample_config : Config :=
  { SAMPLE_RATE := 16000
    I2S_SPEAKER_SD_PIN := 5
    ESP_NOW_WIFI_CHANNEL := 1
    ESP_NOW_CHANNEL_MIN := 1
    ESP_NOW_CHANNEL_MAX := 11
    USE_ESP_NOW := true }

/-- A coordinator at the head of the receive loop with volume level 3, last
volume action at clock value 0, and nothing recorded yet. -/
def state_level_three : State :=
  { app := { m_volume_level := 3, m_last_volume_button_time := 0,
             m_current_channel := 1, m_last_channel_button_time := 0 }
    samples := []
    mode := Mode.receiving 0
    tick := 0
    trace := [] }

/-- An environment in which only the volume-down button reads active and the
clock reads 1000 ms. -/
def env_volume_down : Env :=
  { digitalRead := fun _ p => decide (p = Pin.GPIO_VOLUME_DOWN_BUTTON)
    millis := fun _ => 1000
    read := fun _ => (0, [])
    remove_samples := fun _ => []
    wifi_connected := true }

/-- An environment for one short transmit burst: the transmit button reads
active at the first three queries only, the clock advances 600 ms per query,
and the sampler delivers three samples per read. -/
def env_short_burst : Env :=
  { digitalRead := fun k p => decide (p = Pin.GPIO_TRANSMIT_BUTTON) && decide (k < 3)
    millis := fun k => 600 * k
    read := fun _ => (3, [11, -22, 33, 44])
    remove_samples := fun _ => [100, -200, 32767, -32768]
    wifi_connected := true }

/-- An environment in which the transmit button reads inactive at the first
query and active at every later one, while the clock stays at 0. -/
def env_press_during_hold : Env :=
  { digitalRead := fun k p => decide (p = Pin.GPIO_TRANSMIT_BUTTON) && decide (0 < k)
    millis := fun _ => 0
    read := fun _ => (0, [])
    remove_samples := fun _ => [100, -200]
    wifi_connected := true }

/-- The coordinator after `begin` with `sample_config` in `env_short_burst`. -/
def state_after_begin : State :=
  begin sample_config env_short_burst []

/-- The coordinator one transition later: at the head of the transmit loop,
entered at clock value 600. -/
def state_in_burst : State :=
  loop sample_config env_short_burst 1 state_after_begin

/-- The coordinator after the first iteration of that transmit loop. -/
def state_late_in_burst : State :=
  loop sample_config env_short_burst 2 state_after_begin

/-- The coordinator at the head of the receive loop, entered at clock value 0,
in `env_press_during_hold`. -/
def state_receiving_hold : State :=
  loop sample_config env_press_during_hold 1 (begin sample_config env_press_during_hold [])

/-- An environment in which the transmit button reads active at the fourth
query only, while the clock advances 2000 ms per query. -/
def env_single_active_read : Env :=
  { digitalRead := fun k p => decide (p = Pin.GPIO_TRANSMIT_BUTTON) && decide (k = 3)
    millis := fun k => 2000 * k
    read := fun _ => (0, [])
    remove_samples := fun _ => []
    wifi_connected := true }

/-- The coordinator at the head of the receive loop, entered at clock value
2000, in `env_single_active_read`. -/
def state_receiving_late : State :=
  loop sample_config env_single_active_read 1 (begin sample_config env_single_active_read [])

/-- An environment in which the transmit button reads inactive at the first
three queries and active at every later one, while the clock advances 2000 ms
per query. -/
def env_press_after_hold : Env :=
  { digitalRead := fun k p => decide (p = Pin.GPIO_TRANSMIT_BUTTON) && decide (3 ≤ k)
    millis := fun k => 2000 * k
    read := fun _ => (0, [])
    remove_samples := fun _ => []
    wifi_connected := true }

/-- The coordinator at the head of the receive loop, entered at clock value
2000, in `env_press_after_hold`. -/
def state_receiving_pressed : State :=
  loop sample_config env_press_after_hold 1 (begin sample_config env_press_after_hold [])

/-- The sample constants with `USE_ESP_NOW` undefined (the UDP transport). -/
def sample_config_udp : Config :=
  { sample_config with USE_ESP_NOW := false }

/-- A coordinator at the head of the receive loop on channel 5 with volume
level 50, last actions at clock value 0, and nothing recorded yet. -/
def state_channel_five : State :=
  { app := { m_volume_level := 50, m_last_volume_button_time := 0,
             m_current_channel := 5, m_last_channel_button_time := 0 }
    samples := []
    mode := Mode.receiving 0
    tick := 0
    trace := [] }

/-- The device calls of an accepted channel change to `n` (lines 299-312): the
flashing-on call and, when `USE_ESP_NOW` is defined, the channel switch of the
transport and the flashing-off call. -/
def channel_change_calls (cfg : Config) (n : Nat) : List Event :=
  if cfg.USE_ESP_NOW = true then
    [Event.set_is_flashing true 0x0000ff, Event.transport_change_channel n,
      Event.set_is_flashing false 0x0000ff]
  else [Event.set_is_flashing true 0x0000ff]

/-- A coordinator at the head of the receive loop at volume level 100 on
channel 11, the upper bounds, with last actions at clock value 0. -/
def state_at_maxima : State :=
  { app := { m_volume_level := 100, m_last_volume_button_time := 0,
             m_current_channel := 11, m_last_channel_button_time := 0 }
    samples := []
    mode := Mode.receiving 0
    tick := 0
    trace := [] }

/-- An environment in which only the volume-up and channel-up buttons read
active and the clock reads 1000 ms. -/
def env_up_buttons : Env :=
  { digitalRead := fun _ p =>
      decide (p = Pin.GPIO_VOLUME_UP_BUTTON) || decide (p = Pin.GPIO_CHANNEL_UP_BUTTON)
    millis := fun _ => 1000
    read := fun _ => (0, [])
    remove_samples := fun _ => []
    wifi_connected := true }

/-- An environment in which only the volume-down and channel-down buttons read
active and the clock reads 1000 ms. -/
def env_down_buttons : Env :=
  { digitalRead := fun _ p =>
      decide (p = Pin.GPIO_VOLUME_DOWN_BUTTON) || decide (p = Pin.GPIO_CHANNEL_DOWN_BUTTON)
    millis := fun _ => 1000
    read := fun _ => (0, [])
    remove_samples := fun _ => []
    wifi_connected := true }

/-- An environment in which every button reads active and the clock reads
1000 ms. -/
def env_all_buttons : Env :=
  { digitalRead := fun _ _ => true
    millis := fun _ => 1000
    read := fun _ => (0, [])
    remove_samples := fun _ => []
    wifi_connected := true }

/-- An environment in which every button reads active and the clock reads
100 ms. -/
def env_early_press : Env :=
  { digitalRead := fun _ _ => true
    millis := fun _ => 100
    read := fun _ => (0, [])
    remove_samples := fun _ => []
    wifi_connected := true }

/-- A finite sequence of polls of `handle_volume_buttons`, one per element of
`envs`, each poll taking its readings from its own environment. -/
def volume_polls (envs : List Env) (s : State) : State :=
  envs.foldl (fun st env => handle_volume_buttons env st) s

/-- The invariant of the volume level: a multiple of 5 within `[0,100]`. -/
def level_ok (v : Nat) : Prop :=
  5 ∣ v ∧ v ≤ 100

/-- A freshly constructed coordinator (volume level 50) with `sample_config`,
placed at the head of the receive loop. -/
def state_constructed : State :=
  { app := Application.init sample_config
    samples := []
    mode := Mode.receiving 0
    tick := 0
    trace := [] }

/-- An environment in which only the volume-up button reads active and the
clock reads `t` ms. -/
def env_volume_up_at (t : Nat) : Env :=
  { digitalRead := fun _ p => decide (p = Pin.GPIO_VOLUME_UP_BUTTON)
    millis := fun _ => t
    read := fun _ => (0, [])
    remove_samples := fun _ => []
    wifi_connected := true }

/-- An environment in which only the volume-down button reads active and the
clock reads `t` ms. -/
def env_volume_down_at (t : Nat) : Env :=
  { digitalRead := fun _ p => decide (p = Pin.GPIO_VOLUME_DOWN_BUTTON)
    millis := fun _ => t
    read := fun _ => (0, [])
    remove_samples := fun _ => []
    wifi_connected := true }

/-- Seven polls 300 ms apart with volume-up held, then one with volume-down. -/
def polls_up_then_down : List Env :=
  (List.range 7).map (fun i => env_volume_up_at (300 * (i + 1)))
    ++ [env_volume_down_at 4000]

/-- The log of a sequence of polls, one per element of `envs`, each poll taking
its readings from its own environment: for every poll, the clock value it
reads and whether it accepted an action. -/
def poll_log {σ : Type} (poll : Env → σ → σ) (clock : Env → σ → Nat)
    (accepted : Env → σ → Bool) : List Env → σ → List (Nat × Bool)
  | [], _ => []
  | env :: envs, s =>
    (clock env s, accepted env s) :: poll_log poll clock accepted envs (poll env s)

/-- The log of a sequence of polls of `handle_volume_buttons`. A poll accepts
an action when it changes a data member (the level or the last-accepted
time). -/
def volume_poll_log (envs : List Env) (s : State) : List (Nat × Bool) :=
  poll_log handle_volume_buttons (fun env st => u32 (env.millis st.tick))
    (fun env st => decide ((handle_volume_buttons env st).app ≠ st.app)) envs s

/-- The log of a sequence of polls of `handle_channel_buttons`. A poll accepts
an action when it changes a data member (the channel or the last-accepted
time) or makes a device call (a channel switch). -/
def channel_poll_log (cfg : Config) (envs : List Env) (s : State) : List (Nat × Bool) :=
  poll_log (handle_channel_buttons cfg) (fun env st => u32 (env.millis st.tick))
    (fun env st => decide ((handle_channel_buttons cfg env st).app ≠ st.app
      ∨ (handle_channel_buttons cfg env st).trace ≠ st.trace)) envs s

/-- The clock values of the polls of a log that accepted an action. -/
def accepted_times (log : List (Nat × Bool)) : List Nat :=
  (log.filter (fun e => e.2)).map Prod.fst

/-- An environment in which every button reads active and the clock reads `t`
ms. -/
def env_all_buttons_at (t : Nat) : Env :=
  { digitalRead := fun _ _ => true
    millis := fun _ => t
    read := fun _ => (0, [])
    remove_samples := fun _ => []
    wifi_connected := true }

/-- Four polls with volume-up held at 300, 400 and 600 ms and volume-down at
900 ms. -/
def polls_volume_sample : List Env :=
  [env_volume_up_at 300, env_volume_up_at 400, env_volume_up_at 600, env_volume_down_at 900]

/-- Three polls with every button held at 300, 350 and 500 ms. -/
def polls_channel_sample : List Env :=
  [env_all_buttons_at 300, env_all_buttons_at 350, env_all_buttons_at 500]

/-- A coordinator at the head of the receive loop at volume level 50 on
channel 5 whose last volume and channel actions were accepted at clock value
`2^32 - 100`, shortly before the 32-bit clock wraps. -/
def state_before_wrap : State :=
  { app := { m_volume_level := 50, m_last_volume_button_time := 4294967196,
             m_current_channel := 5, m_last_channel_button_time := 4294967196 }
    samples := []
    mode := Mode.receiving 0
    tick := 0
    trace := [] }

/-- An environment in which only the volume-up and channel-up buttons read
active and the clock, having wrapped, reads 150 ms. -/
def env_up_after_wrap : Env :=
  { digitalRead := fun _ p =>
      decide (p = Pin.GPIO_VOLUME_UP_BUTTON) || decide (p = Pin.GPIO_CHANNEL_UP_BUTTON)
    millis := fun _ => 150
    read := fun _ => (0, [])
    remove_samples := fun _ => []
    wifi_connected := true }

/-- Three polls with volume-up held at 150, 200 and 400 ms. -/
def polls_after_wrap : List Env :=
  [env_volume_up_at 150, env_volume_up_at 200, env_volume_up_at 400]

/-! # Theorems -/

/-! ## Bookkeeping on states -/

@[simp]
theorem emit_mode (s : State) (es : List Event) : (s.emit es).mode = s.mode := rfl

@[simp]
theorem emit_tick (s : State) (es : List Event) : (s.emit es).tick = s.tick := rfl

@[simp]
theorem emit_app (s : State) (es : List Event) : (s.emit es).app = s.app := rfl

@[simp]
theorem emit_samples (s : State) (es : List Event) : (s.emit es).samples = s.samples := rfl

@[simp]
theorem emit_trace (s : State) (es : List Event) : (s.emit es).trace = s.trace ++ es := rfl

@[simp]
theorem next_mode (s : State) : s.next.mode = s.mode := rfl

@[simp]
theorem next_tick (s : State) : s.next.tick = s.tick + 1 := rfl

@[simp]
theorem next_app (s : State) : s.next.app = s.app := rfl

@[simp]
theorem next_samples (s : State) : s.next.samples = s.samples := rfl

@[simp]
theorem next_trace (s : State) : s.next.trace = s.trace := rfl

/-! ## Volume arithmetic -/

theorem tdiv_hundred (p : Int) :
    Int.tdiv p 100 = if 0 ≤ p then p / 100 else -((-p) / 100) := by
  split
  · next h => exact Int.tdiv_eq_ediv h (by decide)
  · next h =>
    have h1 : Int.tdiv (-p) 100 = (-p) / 100 := Int.tdiv_eq_ediv (by omega) (by decide)
    rw [← h1, Int.neg_tdiv, neg_neg]

theorem product_bounds (v : Nat) (s : Int) (hv : v ≤ 100)
    (hlo : -32768 ≤ s) (hhi : s ≤ 32767) :
    -3276800 ≤ s * (v : Int) ∧ s * (v : Int) ≤ 3276700 := by
  have h0 : (0 : Int) ≤ (v : Int) := Int.ofNat_nonneg v
  have h1 : (v : Int) ≤ 100 := by exact_mod_cast hv
  constructor <;> nlinarith

theorem scale_sample_eq_tdiv (v : Nat) (s : Int) (hv : v ≤ 100)
    (hlo : -32768 ≤ s) (hhi : s ≤ 32767) :
    scale_sample v s = Int.tdiv (s * (v : Int)) 100 := by
  obtain ⟨h1, h2⟩ := product_bounds v s hv hlo hhi
  have hs : i32 s = s := by unfold i32; omega
  have hp : i32 (s * (v : Int)) = s * (v : Int) := by unfold i32; omega
  unfold scale_sample
  simp only [hs, hp]
  rw [tdiv_hundred]
  generalize s * (v : Int) = p at h1 h2
  unfold i32 i16
  split <;> split <;> split <;> omega

theorem foldl_set_length (f : Int → Int) (n : Nat) (l : List Int) :
    ((List.range n).foldl (fun buf j => buf.set j (f (buf.getD j 0))) l).length = l.length := by
  induction n with
  | zero => simp
  | succ n ih =>
    rw [List.range_succ, List.foldl_append]
    simp only [List.foldl_cons, List.foldl_nil, List.length_set]
    exact ih

theorem foldl_set_getElem? (f : Int → Int) (n : Nat) (l : List Int) (i : Nat) :
    ((List.range n).foldl (fun buf j => buf.set j (f (buf.getD j 0))) l)[i]?
      = if i < n then (l[i]?).map f else l[i]? := by
  induction n with
  | zero => simp
  | succ n ih =>
    rw [List.range_succ, List.foldl_append]
    simp only [List.foldl_cons, List.foldl_nil]
    rw [List.getElem?_set]
    by_cases hni : n = i
    · subst hni
      have hn := ih
      simp only [lt_self_iff_false, if_false] at hn
      rw [List.getD_eq_getElem?_getD, hn]
      rcases hl : l[n]? with _ | x
      · have : ¬ n < (List.foldl (fun buf j => buf.set j (f (buf.getD j 0))) l
            (List.range n)).length := by
          intro hlt
          have := List.getElem?_eq_getElem hlt
          rw [hn, hl] at this
          exact Option.noConfusion this
        rw [if_pos rfl, if_neg this]
        simp
      · have : n < (List.foldl (fun buf j => buf.set j (f (buf.getD j 0))) l
            (List.range n)).length := by
          by_contra hlt
          have := List.getElem?_eq_none (Nat.le_of_not_lt hlt)
          rw [hn, hl] at this
          exact Option.noConfusion this
        rw [if_pos rfl, if_pos this]
        simp
    · simp only [hni, if_false]
      rw [ih]
      by_cases h1 : i < n
      · have h2 : i < n + 1 := by omega
        simp [h1, h2]
      · have h2 : ¬ i < n + 1 := by omega
        simp [h1, h2]

theorem foldl_set_getD (f : Int → Int) (n : Nat) (l : List Int) (i : Nat) :
    ((List.range n).foldl (fun buf j => buf.set j (f (buf.getD j 0))) l).getD i 0
      = if i < n ∧ i < l.length then f (l.getD i 0) else l.getD i 0 := by
  rw [List.getD_eq_getElem?_getD, foldl_set_getElem?, List.getD_eq_getElem?_getD]
  by_cases hl : i < l.length
  · rw [List.getElem?_eq_getElem hl]
    by_cases hn : i < n <;> simp [hn, hl]
  · rw [List.getElem?_eq_none (Nat.le_of_not_lt hl)]
    by_cases hn : i < n <;> simp [hn, hl]

theorem apply_volume_getD (v : Nat) (samples : List Int) (count : Int) (i : Nat)
    (hv : v ≠ 100) :
    (apply_volume_to_samples v samples count).getD i 0
      = if (i : Int) < count ∧ i < samples.length
        then scale_sample v (samples.getD i 0) else samples.getD i 0 := by
  unfold apply_volume_to_samples
  rw [if_neg hv, foldl_set_getD]
  have : (i < count.toNat ∧ i < samples.length) ↔ ((i : Int) < count ∧ i < samples.length) := by
    omega
  simp [this]

theorem scale_sample_zero (s : Int) : scale_sample 0 s = 0 := by
  unfold scale_sample
  simp [i32, i16, Int.tdiv]

theorem mem_getD_of_lt (samples : List Int) (i : Nat) (hi : i < samples.length) :
    samples.getD i 0 ∈ samples := by
  rw [List.getD_eq_getElem samples 0 hi]
  exact List.getElem_mem hi

/-- The value of cell `i` after `apply_volume_to_samples` at a level in
`[0,100]`, for a chunk of 16-bit samples: cells below `count` hold the
truncated quotient, the others are untouched. -/
theorem apply_volume_value (v : Nat) (samples : List Int) (count : Int) (i : Nat)
    (hv : v ≤ 100) (hs : ∀ x ∈ samples, -32768 ≤ x ∧ x ≤ 32767)
    (hi : i < samples.length) :
    (apply_volume_to_samples v samples count).getD i 0
      = if (i : Int) < count then Int.tdiv (samples.getD i 0 * (v : Int)) 100
        else samples.getD i 0 := by
  obtain ⟨hlo, hhi⟩ := hs _ (mem_getD_of_lt samples i hi)
  by_cases h100 : v = 100
  · subst h100
    have : apply_volume_to_samples 100 samples count = samples := by
      simp [apply_volume_to_samples]
    rw [this]
    have hq : Int.tdiv (samples.getD i 0 * ((100 : Nat) : Int)) 100 = samples.getD i 0 := by
      rw [tdiv_hundred]
      split <;> omega
    rw [hq]
    simp
  · rw [apply_volume_getD v samples count i h100, scale_sample_eq_tdiv v _ hv hlo hhi]
    simp [hi]

/-! ## Claims on `apply_volume_to_samples` -/

/-- C6: for every volume level `v` in `[0,100]` and every chunk of 16-bit
samples, the cell `i` below `count` holds, after `apply_volume_to_samples`, the
quotient of `s * v` by 100 truncated toward zero, `s` being the old content of
the cell. The product computed in `int32_t` equals the exact product (no
overflow in 32 bits), and the quotient lies in `[-32768, 32767]`, so neither
clamp changes it. -/
theorem apply_volume_truncated_quotient (v : Nat) (samples : List Int) (count : Int)
    (i : Nat) (hv : v ≤ 100) (hs : ∀ x ∈ samples, -32768 ≤ x ∧ x ≤ 32767)
    (hi : i < samples.length) (hc : (i : Int) < count) :
    i32 (i32 (samples.getD i 0) * (v : Int)) = samples.getD i 0 * (v : Int)
    ∧ -2147483648 ≤ samples.getD i 0 * (v : Int)
    ∧ samples.getD i 0 * (v : Int) ≤ 2147483647
    ∧ -32768 ≤ Int.tdiv (samples.getD i 0 * (v : Int)) 100
    ∧ Int.tdiv (samples.getD i 0 * (v : Int)) 100 ≤ 32767
    ∧ (apply_volume_to_samples v samples count).getD i 0
        = Int.tdiv (samples.getD i 0 * (v : Int)) 100 := by
  obtain ⟨hlo, hhi⟩ := hs _ (mem_getD_of_lt samples i hi)
  obtain ⟨h1, h2⟩ := product_bounds v _ hv hlo hhi
  have hval := apply_volume_value v samples count i hv hs hi
  rw [if_pos hc] at hval
  have hs16 : i32 (samples.getD i 0) = samples.getD i 0 := by unfold i32; omega
  have hq := tdiv_hundred (samples.getD i 0 * (v : Int))
  refine ⟨?_, by omega, by omega, ?_, ?_, hval⟩
  · rw [hs16]; unfold i32; omega
  · rw [hq]; split <;> omega
  · rw [hq]; split <;> omega

/-- Witness of C6 at level 37 on the chunk `[-32768, 32767, -201]`, cell 0. -/
theorem apply_volume_truncated_quotient_witness :
    (37 ≤ 100 ∧ (∀ x ∈ [(-32768 : Int), 32767, -201], -32768 ≤ x ∧ x ≤ 32767)
      ∧ 0 < [(-32768 : Int), 32767, -201].length ∧ ((0 : Nat) : Int) < 128)
    ∧ (apply_volume_to_samples 37 [-32768, 32767, -201] 128).getD 0 0 = -12124 :=
  ⟨⟨by decide, by decide, by decide, by decide⟩,
    (apply_volume_truncated_quotient 37 [-32768, 32767, -201] 128 0
      (by decide) (by decide) (by decide) (by decide)).2.2.2.2.2⟩

/-- C7: for a 16-bit sample `s > 0` in cell `i` and volume levels
`v1 ≤ v2 ≤ 100`, the cell after `apply_volume_to_samples` at level `v1` is at
most the cell after it at level `v2`; `v2 = 100`, where scaling is skipped, is
included. -/
theorem apply_volume_monotone (v1 v2 : Nat) (samples : List Int) (count : Int) (i : Nat)
    (h12 : v1 ≤ v2) (h2 : v2 ≤ 100) (hs : ∀ x ∈ samples, -32768 ≤ x ∧ x ≤ 32767)
    (hi : i < samples.length) (hpos : 0 < samples.getD i 0) :
    (apply_volume_to_samples v1 samples count).getD i 0
      ≤ (apply_volume_to_samples v2 samples count).getD i 0 := by
  rw [apply_volume_value v1 samples count i (le_trans h12 h2) hs hi,
    apply_volume_value v2 samples count i h2 hs hi]
  split
  · have h0 : (0 : Int) ≤ (v1 : Int) := Int.ofNat_nonneg v1
    have hle : (v1 : Int) ≤ (v2 : Int) := by exact_mod_cast h12
    have hp1 : 0 ≤ samples.getD i 0 * (v1 : Int) := Int.mul_nonneg (le_of_lt hpos) h0
    have hp2 : samples.getD i 0 * (v1 : Int) ≤ samples.getD i 0 * (v2 : Int) :=
      Int.mul_le_mul_of_nonneg_left hle (le_of_lt hpos)
    rw [Int.tdiv_eq_ediv hp1 (by decide), Int.tdiv_eq_ediv (le_trans hp1 hp2) (by decide)]
    exact Int.ediv_le_ediv (by decide) hp2
  · exact le_refl _

/-- Witness of C7 at levels 95 and 100 on the sample 32767. -/
theorem apply_volume_monotone_witness :
    (95 ≤ 100 ∧ 100 ≤ 100 ∧ (∀ x ∈ [(32767 : Int), 7], -32768 ≤ x ∧ x ≤ 32767)
      ∧ 0 < [(32767 : Int), 7].length ∧ 0 < [(32767 : Int), 7].getD 0 0)
    ∧ (apply_volume_to_samples 95 [32767, 7] 128).getD 0 0
        ≤ (apply_volume_to_samples 100 [32767, 7] 128).getD 0 0 :=
  ⟨⟨by decide, by decide, by decide, by decide, by decide⟩,
    apply_volume_monotone 95 100 [32767, 7] 128 0
      (by decide) (by decide) (by decide) (by decide) (by decide)⟩

/-- C8: at volume level 100 `apply_volume_to_samples` returns the chunk as it
was, for every chunk and every count. -/
theorem apply_volume_full_level (samples : List Int) (count : Int) :
    apply_volume_to_samples 100 samples count = samples := by
  simp [apply_volume_to_samples]

/-- C9: at volume level 0 `apply_volume_to_samples` leaves the length of the
chunk as it was, sets every cell below `count` to 0 whatever it held, and does
not touch the cells from `count` on. -/
theorem apply_volume_zero_level (samples : List Int) (count : Int) (i : Nat)
    (hi : i < samples.length) :
    (apply_volume_to_samples 0 samples count).length = samples.length
    ∧ ((i : Int) < count → (apply_volume_to_samples 0 samples count).getD i 0 = 0)
    ∧ (¬ (i : Int) < count →
        (apply_volume_to_samples 0 samples count).getD i 0 = samples.getD i 0) := by
  refine ⟨?_, ?_, ?_⟩
  · unfold apply_volume_to_samples
    rw [if_neg (by decide)]
    exact foldl_set_length _ _ _
  · intro hc
    rw [apply_volume_getD 0 samples count i (by decide), if_pos ⟨hc, hi⟩, scale_sample_zero]
  · intro hc
    rw [apply_volume_getD 0 samples count i (by decide), if_neg (fun h => hc h.1)]

/-- Witness of C9 on the chunk `[-32768, 32767, 5]` with count 2. -/
theorem apply_volume_zero_level_witness :
    1 < [(-32768 : Int), 32767, 5].length
    ∧ apply_volume_to_samples 0 [-32768, 32767, 5] 2 = [0, 0, 5]
    ∧ (apply_volume_to_samples 0 [-32768, 32767, 5] 2).getD 1 0 = 0 :=
  ⟨by decide, by decide,
    (apply_volume_zero_level [-32768, 32767, 5] 2 1 (by decide)).2.1 (by decide)⟩

/-! ## Single transitions of `loop` -/

theorem loop_step_top (cfg : Config) (env : Env) (s : State) (h : s.mode = Mode.top) :
    loop_step cfg env s =
      if env.digitalRead s.tick Pin.GPIO_TRANSMIT_BUTTON then transmit_entry env s.next
      else receive_entry cfg env s.next := by
  unfold loop_step
  rw [h]

theorem loop_step_transmitting (cfg : Config) (env : Env) (s : State) (t0 : Nat)
    (h : s.mode = Mode.transmitting t0) :
    loop_step cfg env s =
      if (transmit_cond env t0 s).1 then transmit_body env (transmit_cond env t0 s).2
      else receive_entry cfg env (transmit_exit cfg (transmit_cond env t0 s).2) := by
  unfold loop_step
  rw [h]

theorem loop_step_receiving (cfg : Config) (env : Env) (s : State) (t0 : Nat)
    (h : s.mode = Mode.receiving t0) :
    loop_step cfg env s =
      if (receive_cond env t0 s).1 then receive_body cfg env (receive_cond env t0 s).2
      else receive_exit cfg (receive_cond env t0 s).2 := by
  unfold loop_step
  rw [h]

theorem loop_step_halted (cfg : Config) (env : Env) (s : State) (h : s.mode = Mode.halted) :
    loop_step cfg env s = s := by
  unfold loop_step
  rw [h]

theorem u32_elapsed (t t0 : Nat) :
    ((u32 ((u32 (t : Int) : Int) - (t0 : Int)) : Nat) : Int)
      = ((t : Int) - (t0 : Int)) % 4294967296 := by
  unfold u32
  omega

theorem elapsed_lt_iff (t t0 : Nat) :
    u32 ((u32 (t : Int) : Int) - (t0 : Int)) < 1000
      ↔ ((t : Int) - (t0 : Int)) % 4294967296 < 1000 := by
  rw [← u32_elapsed]
  omega

theorem transmit_cond_fst (env : Env) (t0 : Nat) (s : State) :
    (transmit_cond env t0 s).1 =
      if ((env.millis s.tick : Int) - (t0 : Int)) % 4294967296 < 1000 then true
      else env.digitalRead (s.tick + 1) Pin.GPIO_TRANSMIT_BUTTON := by
  unfold transmit_cond
  simp only [elapsed_lt_iff, next_tick]
  split <;> rfl

theorem transmit_cond_snd (env : Env) (t0 : Nat) (s : State) :
    (transmit_cond env t0 s).2 =
      if ((env.millis s.tick : Int) - (t0 : Int)) % 4294967296 < 1000 then s.next
      else s.next.next := by
  unfold transmit_cond
  simp only [elapsed_lt_iff]
  split <;> rfl

theorem receive_cond_fst (env : Env) (t0 : Nat) (s : State) :
    (receive_cond env t0 s).1 =
      if ((env.millis s.tick : Int) - (t0 : Int)) % 4294967296 < 1000 then true
      else !env.digitalRead (s.tick + 1) Pin.GPIO_TRANSMIT_BUTTON := by
  unfold receive_cond
  simp only [elapsed_lt_iff, next_tick]
  split <;> rfl

theorem receive_cond_snd (env : Env) (t0 : Nat) (s : State) :
    (receive_cond env t0 s).2 =
      if ((env.millis s.tick : Int) - (t0 : Int)) % 4294967296 < 1000 then s.next
      else s.next.next := by
  unfold receive_cond
  simp only [elapsed_lt_iff]
  split <;> rfl

@[simp]
theorem transmit_cond_mode (env : Env) (t0 : Nat) (s : State) :
    (transmit_cond env t0 s).2.mode = s.mode := by
  rw [transmit_cond_snd]; split <;> rfl

@[simp]
theorem transmit_cond_trace (env : Env) (t0 : Nat) (s : State) :
    (transmit_cond env t0 s).2.trace = s.trace := by
  rw [transmit_cond_snd]; split <;> rfl

@[simp]
theorem receive_cond_mode (env : Env) (t0 : Nat) (s : State) :
    (receive_cond env t0 s).2.mode = s.mode := by
  rw [receive_cond_snd]; split <;> rfl

@[simp]
theorem receive_cond_trace (env : Env) (t0 : Nat) (s : State) :
    (receive_cond env t0 s).2.trace = s.trace := by
  rw [receive_cond_snd]; split <;> rfl

@[simp]
theorem transmit_body_mode (env : Env) (s : State) : (transmit_body env s).mode = s.mode := rfl

theorem transmit_body_samples (env : Env) (s : State) :
    (transmit_body env s).samples = store_chunk s.samples (env.read s.tick).2 := rfl

theorem transmit_body_trace (env : Env) (s : State) :
    (transmit_body env s).trace = s.trace ++ Event.input_read 128 ::
      forward_samples (transmit_body env s).samples (i32 (env.read s.tick).1) := by
  simp [transmit_body]

@[simp]
theorem transmit_exit_mode (cfg : Config) (s : State) : (transmit_exit cfg s).mode = s.mode := rfl

@[simp]
theorem receive_entry_mode (cfg : Config) (env : Env) (s : State) :
    (receive_entry cfg env s).mode = Mode.receiving (u32 (env.millis s.tick)) := rfl

@[simp]
theorem receive_entry_trace (cfg : Config) (env : Env) (s : State) :
    (receive_entry cfg env s).trace = s.trace ++ speaker_sd_write cfg true := rfl

@[simp]
theorem transmit_entry_mode (env : Env) (s : State) :
    (transmit_entry env s).mode = Mode.transmitting (u32 (env.millis s.tick)) := rfl

@[simp]
theorem transmit_entry_trace (env : Env) (s : State) :
    (transmit_entry env s).trace = s.trace ++
      [Event.set_is_flashing true 0xff0000, Event.output_stop, Event.input_start] := rfl

@[simp]
theorem transmit_exit_trace (cfg : Config) (s : State) :
    (transmit_exit cfg s).trace = s.trace ++
      [Event.transport_flush, Event.set_is_flashing false 0xff0000, Event.input_stop,
        Event.output_start cfg.SAMPLE_RATE] := rfl

@[simp]
theorem receive_exit_mode (cfg : Config) (s : State) : (receive_exit cfg s).mode = Mode.top := rfl

@[simp]
theorem receive_exit_trace (cfg : Config) (s : State) :
    (receive_exit cfg s).trace = s.trace ++ speaker_sd_write cfg false := rfl

theorem store_chunk_length (old xs : List Int) : (store_chunk old xs).length = 128 := by
  simp [store_chunk]

theorem forward_samples_eq_take (samples : List Int) (n : Nat) (h : n ≤ samples.length) :
    forward_samples samples (n : Int) = (samples.take n).map Event.transport_add_sample := by
  unfold forward_samples
  apply List.ext_getElem?
  intro i
  simp only [Int.toNat_ofNat, List.getElem?_map, List.getElem?_take]
  by_cases hi : i < n
  · have hl : i < samples.length := by omega
    simp [List.getElem?_range hi, hi, List.getD_eq_getElem?_getD, List.getElem?_eq_getElem hl]
  · simp [hi, List.getElem?_eq_none]
    omega

theorem forward_samples_nonpos (samples : List Int) (n : Int) (h : n ≤ 0) :
    forward_samples samples n = [] := by
  unfold forward_samples
  have : n.toNat = 0 := by omega
  simp [this]

/-! ## Claims on the transmit loop -/

/-- C3: with the coordinator at the head of the transmit loop entered at clock
value `t0`, an evaluation of the loop condition at clock value `t` with
`(t - t0) mod 2^32 < 1000` keeps it in Transmitting (same `t0`) whatever the
transmit button reads, and an evaluation with `(t - t0) mod 2^32 ≥ 1000` keeps
it in Transmitting exactly when the transmit button, read next, is active. -/
theorem transmit_hold_then_button (cfg : Config) (env : Env) (s : State) (t0 : Nat)
    (h : s.mode = Mode.transmitting t0) :
    (((env.millis s.tick : Int) - (t0 : Int)) % 4294967296 < 1000 →
        (loop_step cfg env s).mode = Mode.transmitting t0)
    ∧ (¬ ((env.millis s.tick : Int) - (t0 : Int)) % 4294967296 < 1000 →
        ((loop_step cfg env s).mode = Mode.transmitting t0
          ↔ env.digitalRead (s.tick + 1) Pin.GPIO_TRANSMIT_BUTTON = true)) := by
  rw [loop_step_transmitting cfg env s t0 h, transmit_cond_fst]
  constructor
  · intro hlt
    simp [hlt, h]
  · intro hge
    rw [if_neg hge]
    cases hb : env.digitalRead (s.tick + 1) Pin.GPIO_TRANSMIT_BUTTON
    · simp
    · simp [h]

/-- C5: in an iteration of the transmit loop (the loop condition holds at the
head) in which the sampler returns `n` (the value of the `int` variable
`samples_read`), the device calls of the iteration are one `read` followed,
when `0 ≤ n ≤ 128`, by exactly `n` calls of `add_sample` carrying
`samples[0], ..., samples[n-1]` in this order and nothing else, and, when
`n ≤ 0`, by no call at all; `samples` is the 128-cell buffer as the sampler
left it. -/
theorem transmit_iteration_forwards (cfg : Config) (env : Env) (s : State) (t0 : Nat)
    (n : Int) (h : s.mode = Mode.transmitting t0)
    (hc : (transmit_cond env t0 s).1 = true)
    (hn : i32 (env.read (transmit_cond env t0 s).2.tick).1 = n) :
    (loop_step cfg env s).samples.length = 128
    ∧ (loop_step cfg env s).samples
        = store_chunk s.samples (env.read (transmit_cond env t0 s).2.tick).2
    ∧ (0 ≤ n → n ≤ 128 →
        (loop_step cfg env s).trace = s.trace ++ Event.input_read 128 ::
          ((loop_step cfg env s).samples.take n.toNat).map Event.transport_add_sample)
    ∧ (n ≤ 0 → (loop_step cfg env s).trace = s.trace ++ [Event.input_read 128]) := by
  rw [loop_step_transmitting cfg env s t0 h, if_pos hc]
  refine ⟨?_, ?_, ?_, ?_⟩
  · rw [transmit_body_samples]; exact store_chunk_length _ _
  · rw [transmit_body_samples]
    congr 1
    rw [transmit_cond_snd]; split <;> rfl
  · intro h0 hle
    have hcast : ((n.toNat : Nat) : Int) = n := Int.toNat_of_nonneg h0
    rw [transmit_body_trace, transmit_cond_trace, hn]
    conv_lhs => rw [← hcast]
    rw [forward_samples_eq_take]
    rw [transmit_body_samples, store_chunk_length]
    omega
  · intro hneg
    rw [transmit_body_trace, transmit_cond_trace, hn, forward_samples_nonpos _ _ hneg]

/-- Every call made by the forwarding loop of lines 148-151 is an `add_sample`. -/
theorem forward_samples_mem (samples : List Int) (n : Int) (e : Event)
    (h : e ∈ forward_samples samples n) : ∃ x, e = Event.transport_add_sample x := by
  unfold forward_samples at h
  rw [List.mem_map] at h
  obtain ⟨i, _, hi⟩ := h
  exact ⟨_, hi.symm⟩

theorem loop_succ (cfg : Config) (env : Env) (n : Nat) (s : State) :
    loop cfg env (n + 1) s = loop_step cfg env (loop cfg env n s) := by
  unfold loop
  exact Function.iterate_succ_apply' _ _ _

theorem loop_succ_first (cfg : Config) (env : Env) (n : Nat) (s : State) :
    loop cfg env (n + 1) s = loop cfg env n (loop_step cfg env s) := by
  unfold loop
  exact Function.iterate_succ_apply _ _ _

theorem loop_zero (cfg : Config) (env : Env) (s : State) : loop cfg env 0 s = s := rfl

/-- While the coordinator stays at the head of the transmit loop, everything
it has issued since it got there is sampler reads and `add_sample` calls. -/
theorem transmit_iterations (cfg : Config) (env : Env) (s : State) (t0 : Nat)
    (h : s.mode = Mode.transmitting t0) (m : Nat)
    (hin : ∀ j, j ≤ m → (loop cfg env j s).mode.is_transmitting = true) :
    (loop cfg env m s).mode = Mode.transmitting t0
    ∧ ∃ body, (loop cfg env m s).trace = s.trace ++ body
        ∧ ∀ e ∈ body, e = Event.input_read 128 ∨ ∃ x, e = Event.transport_add_sample x := by
  induction m with
  | zero => exact ⟨h, [], by simp [loop_zero], by simp⟩
  | succ m ih =>
    obtain ⟨hm, body, hb, hall⟩ := ih (fun j hj => hin j (Nat.le_succ_of_le hj))
    have hlast := hin (m + 1) (le_refl _)
    rw [loop_succ, loop_step_transmitting cfg env _ t0 hm] at hlast ⊢
    by_cases hc : (transmit_cond env t0 (loop cfg env m s)).1 = true
    · rw [if_pos hc]
      have ht := transmit_body_trace env (transmit_cond env t0 (loop cfg env m s)).2
      rw [transmit_cond_trace, hb, List.append_assoc] at ht
      refine ⟨by simp [hm], _, ht, ?_⟩
      · intro e he
        rcases List.mem_append.1 he with he | he
        · exact hall e he
        · rcases List.mem_cons.1 he with he | he
          · exact Or.inl he
          · exact Or.inr (forward_samples_mem _ _ e he)
    · rw [if_neg hc] at hlast
      simp [Mode.is_transmitting] at hlast

/-- The transition that leaves the transmit loop. -/
theorem transmit_leave (cfg : Config) (env : Env) (s : State) (t0 : Nat)
    (h : s.mode = Mode.transmitting t0)
    (hout : (loop_step cfg env s).mode.is_transmitting = false) :
    (loop_step cfg env s).trace = s.trace ++
        [Event.transport_flush, Event.set_is_flashing false 0xff0000, Event.input_stop,
          Event.output_start cfg.SAMPLE_RATE] ++ speaker_sd_write cfg true
    ∧ (loop_step cfg env s).mode.is_receiving = true := by
  rw [loop_step_transmitting cfg env s t0 h] at hout ⊢
  by_cases hc : (transmit_cond env t0 s).1 = true
  · rw [if_pos hc] at hout
    simp [h, Mode.is_transmitting] at hout
  · rw [if_neg hc]
    simp [Mode.is_receiving]

/-- C1: a transmit burst is entered from the top of the loop with the transmit
button active, stays at the head of the transmit loop for `m + 1` evaluations
of the loop condition and is left at the next one. Whatever the buttons, the
clock and the sampler do, the device calls of the burst are the three entry
calls, then sampler reads and `add_sample` calls only, then `flush`, the
indicator call, the Sampler stop and the Output start, in this order, followed
by the speaker-enable write of the receive entry. So `flush` is called exactly
once in the burst, after every `add_sample` and before the Sampler stop and the
Output restart, and the coordinator is then at the head of the receive loop. -/
theorem transmit_burst_flushes_once (cfg : Config) (env : Env) (s : State) (m : Nat)
    (htop : s.mode = Mode.top)
    (hin : ∀ j, j ≤ m → (loop cfg env (j + 1) s).mode.is_transmitting = true)
    (hout : (loop cfg env (m + 2) s).mode.is_transmitting = false) :
    ∃ body : List Event,
      (loop cfg env (m + 2) s).trace = s.trace
        ++ [Event.set_is_flashing true 0xff0000, Event.output_stop, Event.input_start]
        ++ body
        ++ [Event.transport_flush, Event.set_is_flashing false 0xff0000, Event.input_stop,
            Event.output_start cfg.SAMPLE_RATE]
        ++ speaker_sd_write cfg true
      ∧ (∀ e ∈ body, e = Event.input_read 128 ∨ ∃ x, e = Event.transport_add_sample x)
      ∧ List.count Event.transport_flush
          ([Event.set_is_flashing true 0xff0000, Event.output_stop, Event.input_start]
            ++ body
            ++ [Event.transport_flush, Event.set_is_flashing false 0xff0000,
                Event.input_stop, Event.output_start cfg.SAMPLE_RATE]
            ++ speaker_sd_write cfg true) = 1
      ∧ (loop cfg env (m + 2) s).mode.is_receiving = true := by
  have h0 := hin 0 (Nat.zero_le _)
  have hstep : loop cfg env 1 s = loop_step cfg env s := by rw [loop_succ, loop_zero]
  rw [hstep, loop_step_top cfg env s htop] at h0
  have hpress : env.digitalRead s.tick Pin.GPIO_TRANSMIT_BUTTON = true := by
    by_contra hb
    rw [if_neg hb] at h0
    simp [Mode.is_transmitting] at h0
  have hentry : loop_step cfg env s = transmit_entry env s.next := by
    rw [loop_step_top cfg env s htop, if_pos hpress]
  have hmode1 : (loop_step cfg env s).mode = Mode.transmitting (u32 (env.millis s.next.tick)) := by
    rw [hentry]; rfl
  have hin1 : ∀ j, j ≤ m → (loop cfg env j (loop_step cfg env s)).mode.is_transmitting = true := by
    intro j hj
    rw [← loop_succ_first]
    exact hin j hj
  obtain ⟨hm, body, hb, hall⟩ := transmit_iterations cfg env _ _ hmode1 m hin1
  have hout1 : (loop_step cfg env (loop cfg env m (loop_step cfg env s))).mode.is_transmitting = false := by
    rw [← loop_succ, ← loop_succ_first]
    exact hout
  obtain ⟨htr, hrx⟩ := transmit_leave cfg env _ _ hm hout1
  have hfinal : loop cfg env (m + 2) s = loop_step cfg env (loop cfg env m (loop_step cfg env s)) := by
    rw [← loop_succ, ← loop_succ_first]
  refine ⟨body, ?_, hall, ?_, ?_⟩
  · rw [hfinal, htr, hb, hentry]
    simp
  · have hbody : List.count Event.transport_flush body = 0 := by
      rw [List.count_eq_zero]
      intro hmem
      rcases hall _ hmem with h1 | ⟨x, h1⟩ <;> exact Event.noConfusion h1
    have hsd : List.count Event.transport_flush (speaker_sd_write cfg true) = 0 := by
      unfold speaker_sd_write
      split <;> simp
    simp [List.count_append, hbody, hsd]
  · rw [hfinal]; exact hrx

/-- Witness of C3: in `env_short_burst` the burst is entered at clock value
600; the poll at 1200 holds the mode without reading the button, the poll at
2400 reads the button inactive and leaves. -/
theorem transmit_hold_then_button_witness :
    (state_in_burst.mode = Mode.transmitting 600
      ∧ ((env_short_burst.millis state_in_burst.tick : Int) - (600 : Nat)) % 4294967296 < 1000
      ∧ (loop_step sample_config env_short_burst state_in_burst).mode = Mode.transmitting 600)
    ∧ (state_late_in_burst.mode = Mode.transmitting 600
      ∧ ¬ ((env_short_burst.millis state_late_in_burst.tick : Int) - (600 : Nat))
            % 4294967296 < 1000
      ∧ ((loop_step sample_config env_short_burst state_late_in_burst).mode = Mode.transmitting 600
          ↔ env_short_burst.digitalRead (state_late_in_burst.tick + 1)
              Pin.GPIO_TRANSMIT_BUTTON = true)) :=
  ⟨⟨by decide, by decide,
      (transmit_hold_then_button sample_config env_short_burst state_in_burst 600
        (by decide)).1 (by decide)⟩,
    ⟨by decide, by decide,
      (transmit_hold_then_button sample_config env_short_burst state_late_in_burst 600
        (by decide)).2 (by decide)⟩⟩

/-- Witness of C5: the first iteration of the burst of `env_short_burst`, in
which the sampler returns 3 and stores `11, -22, 33, 44`. -/
theorem transmit_iteration_forwards_witness :
    (state_in_burst.mode = Mode.transmitting 600
      ∧ (transmit_cond env_short_burst 600 state_in_burst).1 = true
      ∧ i32 (env_short_burst.read (transmit_cond env_short_burst 600 state_in_burst).2.tick).1
          = 3)
    ∧ (loop_step sample_config env_short_burst state_in_burst).trace
        = state_in_burst.trace ++ [Event.input_read 128, Event.transport_add_sample 11,
            Event.transport_add_sample (-22), Event.transport_add_sample 33] :=
  ⟨⟨by decide, by decide, by decide⟩,
    (transmit_iteration_forwards sample_config env_short_burst state_in_burst 600 3
      (by decide) (by decide) (by decide)).2.2.1 (by decide) (by decide)⟩

/-- Witness of C1: the burst of `env_short_burst`, with one iteration of the
transmit loop. -/
theorem transmit_burst_flushes_once_witness :
    (state_after_begin.mode = Mode.top
      ∧ (∀ j, j ≤ 1 →
          (loop sample_config env_short_burst (j + 1) state_after_begin).mode.is_transmitting
            = true)
      ∧ (loop sample_config env_short_burst (1 + 2) state_after_begin).mode.is_transmitting
          = false)
    ∧ ∃ body : List Event,
      (loop sample_config env_short_burst (1 + 2) state_after_begin).trace
        = state_after_begin.trace
        ++ [Event.set_is_flashing true 0xff0000, Event.output_stop, Event.input_start]
        ++ body
        ++ [Event.transport_flush, Event.set_is_flashing false 0xff0000, Event.input_stop,
            Event.output_start sample_config.SAMPLE_RATE]
        ++ speaker_sd_write sample_config true
      ∧ (∀ e ∈ body, e = Event.input_read 128 ∨ ∃ x, e = Event.transport_add_sample x)
      ∧ List.count Event.transport_flush
          ([Event.set_is_flashing true 0xff0000, Event.output_stop, Event.input_start]
            ++ body
            ++ [Event.transport_flush, Event.set_is_flashing false 0xff0000,
                Event.input_stop, Event.output_start sample_config.SAMPLE_RATE]
            ++ speaker_sd_write sample_config true) = 1
      ∧ (loop sample_config env_short_burst (1 + 2) state_after_begin).mode.is_receiving
          = true :=
  ⟨⟨by decide, by decide, by decide⟩,
    transmit_burst_flushes_once sample_config env_short_burst state_after_begin 1
      (by decide) (by decide) (by decide)⟩

/-! ## Claim on leaving the receive loop -/

/-- C4, as stated, fails in two ways. In `env_press_during_hold` the
coordinator is at the head of the receive loop entered at clock value 0, the
clock still reads 0 and the transmit button reads active at the poll and ever
after, yet the poll keeps the coordinator in Receiving and plays a further
chunk. In `env_single_active_read` the poll comes 2000 ms after entry and
reads the button active, the coordinator leaves the receive loop, but the read
at the top of the loop finds the button inactive and the coordinator is back
in Receiving without having transmitted. -/
theorem receive_poll_not_always_transmit :
    (state_receiving_hold.mode = Mode.receiving 0
      ∧ env_press_during_hold.digitalRead state_receiving_hold.tick
          Pin.GPIO_TRANSMIT_BUTTON = true
      ∧ env_press_during_hold.digitalRead (state_receiving_hold.tick + 1)
          Pin.GPIO_TRANSMIT_BUTTON = true
      ∧ (loop_step sample_config env_press_during_hold state_receiving_hold).mode
          = Mode.receiving 0
      ∧ (loop_step sample_config env_press_during_hold state_receiving_hold).trace
          = state_receiving_hold.trace ++ [Event.output_buffer_remove_samples 128,
              Event.output_write
                (loop_step sample_config env_press_during_hold state_receiving_hold).samples 128])
    ∧ (state_receiving_late.mode = Mode.receiving 2000
      ∧ env_single_active_read.millis state_receiving_late.tick = 4000
      ∧ env_single_active_read.digitalRead (state_receiving_late.tick + 1)
          Pin.GPIO_TRANSMIT_BUTTON = true
      ∧ (loop_step sample_config env_single_active_read state_receiving_late).mode = Mode.top
      ∧ (loop_step sample_config env_single_active_read
          (loop_step sample_config env_single_active_read state_receiving_late)).mode
          = Mode.receiving 10000) :=
  ⟨⟨by decide, by decide, by decide, by decide, rfl⟩,
    ⟨by decide, by decide, by decide, by decide, by decide⟩⟩

/-- C4, amended: with the coordinator at the head of the receive loop entered
at clock value `t0`, a poll at clock value `t` with `(t - t0) mod 2^32 ≥ 1000`
at which the transmit button reads active leaves the receive loop at that poll
without playing a chunk: the only device call is the speaker-enable write, the
volume, channel and buffer are untouched, and the coordinator is at the top of
the loop. If the button reads active again at the read made there, the next
transition enters Transmitting, issuing the indicator call, the Output stop
and the Sampler start and nothing else. -/
theorem receive_poll_after_hold (cfg : Config) (env : Env) (s : State) (t0 : Nat)
    (h : s.mode = Mode.receiving t0)
    (hge : ¬ ((env.millis s.tick : Int) - (t0 : Int)) % 4294967296 < 1000)
    (hb : env.digitalRead (s.tick + 1) Pin.GPIO_TRANSMIT_BUTTON = true) :
    (loop_step cfg env s).mode = Mode.top
    ∧ (loop_step cfg env s).trace = s.trace ++ speaker_sd_write cfg false
    ∧ (loop_step cfg env s).app = s.app
    ∧ (loop_step cfg env s).samples = s.samples
    ∧ (loop_step cfg env s).tick = s.tick + 2
    ∧ (env.digitalRead (s.tick + 2) Pin.GPIO_TRANSMIT_BUTTON = true →
        (loop_step cfg env (loop_step cfg env s)).mode
            = Mode.transmitting (u32 (env.millis (s.tick + 3)))
        ∧ (loop_step cfg env (loop_step cfg env s)).trace
            = s.trace ++ speaker_sd_write cfg false
              ++ [Event.set_is_flashing true 0xff0000, Event.output_stop,
                  Event.input_start]) := by
  have hc : (receive_cond env t0 s).1 = false := by
    rw [receive_cond_fst, if_neg hge, hb]; rfl
  have hs : (receive_cond env t0 s).2 = s.next.next := by
    rw [receive_cond_snd, if_neg hge]
  have hstep : loop_step cfg env s = receive_exit cfg s.next.next := by
    rw [loop_step_receiving cfg env s t0 h, hc, hs]; rfl
  rw [hstep]
  refine ⟨rfl, rfl, rfl, rfl, rfl, ?_⟩
  intro hb2
  have h2 : loop_step cfg env (receive_exit cfg s.next.next)
      = transmit_entry env (receive_exit cfg s.next.next).next := by
    rw [loop_step_top cfg env _ rfl]
    have : (receive_exit cfg s.next.next).tick = s.tick + 2 := rfl
    rw [this, if_pos hb2]
  rw [h2]
  exact ⟨rfl, rfl⟩

/-- Witness of C4 amended: in `env_press_after_hold` the receive loop is
entered at clock value 2000, the poll at 4000 reads the button active, and so
does the read at the top of the loop; Transmitting is entered at 10000. -/
theorem receive_poll_after_hold_witness :
    (state_receiving_pressed.mode = Mode.receiving 2000
      ∧ ¬ ((env_press_after_hold.millis state_receiving_pressed.tick : Int) - (2000 : Nat))
            % 4294967296 < 1000
      ∧ env_press_after_hold.digitalRead (state_receiving_pressed.tick + 1)
          Pin.GPIO_TRANSMIT_BUTTON = true
      ∧ env_press_after_hold.digitalRead (state_receiving_pressed.tick + 2)
          Pin.GPIO_TRANSMIT_BUTTON = true)
    ∧ (loop_step sample_config env_press_after_hold state_receiving_pressed).mode = Mode.top
    ∧ (loop_step sample_config env_press_after_hold state_receiving_pressed).trace
        = state_receiving_pressed.trace ++ speaker_sd_write sample_config false
    ∧ (loop_step sample_config env_press_after_hold
        (loop_step sample_config env_press_after_hold state_receiving_pressed)).mode
        = Mode.transmitting 10000 :=
  ⟨⟨by decide, by decide, by decide, by decide⟩,
    (receive_poll_after_hold sample_config env_press_after_hold state_receiving_pressed 2000
      (by decide) (by decide) (by decide)).1,
    (receive_poll_after_hold sample_config env_press_after_hold state_receiving_pressed 2000
      (by decide) (by decide) (by decide)).2.1,
    ((receive_poll_after_hold sample_config env_press_after_hold state_receiving_pressed 2000
      (by decide) (by decide) (by decide)).2.2.2.2.2 (by decide)).1⟩

/-! ## The volume-down step below level 5 -/

/-- At level 3, a level the coordinator never holds (from 50 the polls only
reach multiples of 5): outside the debounce window (the clock reads 1000, the
last volume action was at 0), with volume-up inactive and volume-down active,
the 8-bit subtraction of line 219 wraps and `handle_volume_buttons` leaves the
level at 254. -/
theorem handle_volume_buttons_wraps_below_five :
    state_level_three.app.m_volume_level = 3
    ∧ ¬ u32 ((u32 (env_volume_down.millis state_level_three.tick) : Int)
          - state_level_three.app.m_last_volume_button_time) < VOLUME_BUTTON_DEBOUNCE_MS
    ∧ env_volume_down.digitalRead (state_level_three.tick + 1) Pin.GPIO_VOLUME_UP_BUTTON
        = false
    ∧ env_volume_down.digitalRead (state_level_three.tick + 2) Pin.GPIO_VOLUME_DOWN_BUTTON
        = true
    ∧ (handle_volume_buttons env_volume_down state_level_three).app.m_volume_level = 254
    ∧ ¬ (handle_volume_buttons env_volume_down state_level_three).app.m_volume_level ≤ 100 := by
  decide

/-! ## The start/stop cycle of the audio devices -/

theorem phase_after_append (p : Phase) (a b : List Event) :
    phase_after p (a ++ b) = phase_after (phase_after p a) b := by
  unfold phase_after
  exact List.foldl_append _ _ _ _

theorem phase_after_snoc (p : Phase) (a : List Event) (e : Event) :
    phase_after p (a ++ [e]) = (phase_after p a).next e := by
  rw [phase_after_append]; rfl

theorem next_bad (e : Event) : Phase.bad.next e = Phase.bad := by
  cases e <;> rfl

theorem phase_after_bad (tr : List Event) : phase_after Phase.bad tr = Phase.bad := by
  induction tr with
  | nil => rfl
  | cons e tr ih =>
    show phase_after (Phase.bad.next e) tr = Phase.bad
    rw [next_bad, ih]

/-- A trace that ends well was well at every earlier point. -/
theorem phase_after_of_split (p : Phase) (pre post : List Event)
    (h : phase_after p (pre ++ post) ≠ Phase.bad) : phase_after p pre ≠ Phase.bad := by
  intro hbad
  rw [phase_after_append, hbad, phase_after_bad] at h
  exact h rfl

theorem next_fresh (p : Phase) (e : Event) (h : p.next e = Phase.fresh) : p = Phase.fresh := by
  cases e <;> cases p <;> simp [Phase.next] at h ⊢

theorem phase_after_fresh (p : Phase) (tr : List Event)
    (h : phase_after p tr = Phase.fresh) : p = Phase.fresh := by
  induction tr generalizing p with
  | nil => exact h
  | cons e tr ih => exact next_fresh p e (ih (p.next e) h)

theorem next_quiet (p : Phase) (e : Event) (h : e.is_switch = false) : p.next e = p := by
  cases e <;> first | rfl | exact Bool.noConfusion h

theorem phase_after_quiet (p : Phase) (tr : List Event) (h : ∀ e ∈ tr, e.is_switch = false) :
    phase_after p tr = p := by
  induction tr with
  | nil => rfl
  | cons e tr ih =>
    show phase_after (p.next e) tr = p
    rw [next_quiet p e (h e (List.mem_cons_self _ _))]
    exact ih (fun x hx => h x (List.mem_cons_of_mem _ hx))

theorem next_output_stopped (q : Phase) (e : Event) (h : q.next e = Phase.output_stopped) :
    e = Event.output_stop ∨ (e.is_switch = false ∧ q = Phase.output_stopped) := by
  cases e <;> cases q <;> simp [Phase.next, Event.is_switch] at h ⊢

theorem next_sampler_stopped (q : Phase) (e : Event) (h : q.next e = Phase.sampler_stopped) :
    e = Event.input_stop ∨ (e.is_switch = false ∧ q = Phase.sampler_stopped) := by
  cases e <;> cases q <;> simp [Phase.next, Event.is_switch] at h ⊢

/-- A trace that reaches `output_stopped` from another phase ends with an
Output stop followed by calls that start or stop nothing. -/
theorem output_stop_before (p0 : Phase) (tr : List Event) (h0 : p0 ≠ Phase.output_stopped)
    (h : phase_after p0 tr = Phase.output_stopped) :
    ∃ a b, tr = a ++ Event.output_stop :: b ∧ ∀ e ∈ b, e.is_switch = false := by
  induction tr using List.reverseRecOn with
  | nil => exact absurd h h0
  | append_singleton tr e ih =>
    rw [phase_after_snoc] at h
    rcases next_output_stopped _ e h with he | ⟨he, hq⟩
    · exact ⟨tr, [], by rw [he], by simp⟩
    · obtain ⟨a, b, hab, hb⟩ := ih hq
      refine ⟨a, b ++ [e], by rw [hab]; simp, ?_⟩
      intro x hx
      rcases List.mem_append.1 hx with hx | hx
      · exact hb x hx
      · rw [List.mem_singleton.1 hx]; exact he

/-- A trace that reaches `sampler_stopped` from another phase ends with a
Sampler stop followed by calls that start or stop nothing. -/
theorem input_stop_before (p0 : Phase) (tr : List Event) (h0 : p0 ≠ Phase.sampler_stopped)
    (h : phase_after p0 tr = Phase.sampler_stopped) :
    ∃ a b, tr = a ++ Event.input_stop :: b ∧ ∀ e ∈ b, e.is_switch = false := by
  induction tr using List.reverseRecOn with
  | nil => exact absurd h h0
  | append_singleton tr e ih =>
    rw [phase_after_snoc] at h
    rcases next_sampler_stopped _ e h with he | ⟨he, hq⟩
    · exact ⟨tr, [], by rw [he], by simp⟩
    · obtain ⟨a, b, hab, hb⟩ := ih hq
      refine ⟨a, b ++ [e], by rw [hab]; simp, ?_⟩
      intro x hx
      rcases List.mem_append.1 hx with hx | hx
      · exact hb x hx
      · rw [List.mem_singleton.1 hx]; exact he

theorem output_started_snoc (tr : List Event) (e : Event) :
    output_started (tr ++ [e]) =
      (match e with
       | Event.output_start _ => true
       | Event.output_stop => false
       | _ => output_started tr) := by
  unfold output_started
  rw [List.foldl_append]
  rfl

theorem sampler_started_snoc (tr : List Event) (e : Event) :
    sampler_started (tr ++ [e]) =
      (match e with
       | Event.input_start => true
       | Event.input_stop => false
       | _ => sampler_started tr) := by
  unfold sampler_started
  rw [List.foldl_append]
  rfl

/-- Along a trace that follows the cycle, the started devices are those of the
phase reached. -/
theorem started_of_phase (tr : List Event) (h : phase_after Phase.fresh tr ≠ Phase.bad) :
    output_started tr = (phase_after Phase.fresh tr).output_on
    ∧ sampler_started tr = (phase_after Phase.fresh tr).sampler_on := by
  induction tr using List.reverseRecOn with
  | nil => exact ⟨rfl, rfl⟩
  | append_singleton tr e ih =>
    have hq : phase_after Phase.fresh tr ≠ Phase.bad := phase_after_of_split _ tr [e] h
    obtain ⟨h1, h2⟩ := ih hq
    rw [phase_after_snoc] at h ⊢
    rw [output_started_snoc, sampler_started_snoc, h1, h2]
    generalize phase_after Phase.fresh tr = q at h hq
    cases e <;> cases q <;>
      simp [Phase.next, Phase.output_on, Phase.sampler_on] at h hq ⊢

theorem not_both_on (p : Phase) : ¬ (p.output_on = true ∧ p.sampler_on = true) := by
  cases p <;> simp [Phase.output_on, Phase.sampler_on]

/-! ## The device calls of each part of `loop` -/

theorem handle_volume_buttons_trace (env : Env) (s : State) :
    (handle_volume_buttons env s).trace = s.trace := by
  simp only [handle_volume_buttons]
  split_ifs <;> rfl

theorem handle_volume_buttons_mode (env : Env) (s : State) :
    (handle_volume_buttons env s).mode = s.mode := by
  simp only [handle_volume_buttons]
  split_ifs <;> rfl

theorem handle_volume_buttons_samples (env : Env) (s : State) :
    (handle_volume_buttons env s).samples = s.samples := by
  simp only [handle_volume_buttons]
  split_ifs <;> rfl

theorem change_channel_mode (cfg : Config) (n : Nat) (s : State) :
    (change_channel cfg n s).mode = s.mode := by
  simp only [change_channel]
  split_ifs <;> rfl

theorem change_channel_quiet (cfg : Config) (n : Nat) (s : State) :
    ∃ es, (change_channel cfg n s).trace = s.trace ++ es
      ∧ ∀ e ∈ es, e.is_switch = false := by
  simp only [change_channel]
  split_ifs
  · exact ⟨[], by simp, by simp⟩
  · exact ⟨[], by simp, by simp⟩
  · exact ⟨[Event.set_is_flashing true 0x0000ff, Event.transport_change_channel n,
      Event.set_is_flashing false 0x0000ff], by simp, by simp [Event.is_switch]⟩
  · exact ⟨[Event.set_is_flashing true 0x0000ff], by simp, by simp [Event.is_switch]⟩

theorem channel_up_mode (cfg : Config) (t : Nat) (s : State) :
    (channel_up cfg t s).mode = s.mode := by
  simp only [channel_up]
  split_ifs
  · exact change_channel_mode cfg _ s
  · rfl

theorem channel_up_quiet (cfg : Config) (t : Nat) (s : State) :
    ∃ es, (channel_up cfg t s).trace = s.trace ++ es ∧ ∀ e ∈ es, e.is_switch = false := by
  simp only [channel_up]
  split_ifs
  · exact change_channel_quiet cfg _ s
  · exact ⟨[], by simp, by simp⟩

theorem channel_down_mode (cfg : Config) (t : Nat) (s : State) :
    (channel_down cfg t s).mode = s.mode := by
  simp only [channel_down]
  split_ifs
  · exact change_channel_mode cfg _ s
  · rfl

theorem channel_down_quiet (cfg : Config) (t : Nat) (s : State) :
    ∃ es, (channel_down cfg t s).trace = s.trace ++ es ∧ ∀ e ∈ es, e.is_switch = false := by
  simp only [channel_down]
  split_ifs
  · exact change_channel_quiet cfg _ s
  · exact ⟨[], by simp, by simp⟩

/-- Two quiet extensions in a row make a quiet extension. -/
theorem quiet_trans (t0 t1 t2 : List Event)
    (h1 : ∃ es, t1 = t0 ++ es ∧ ∀ e ∈ es, e.is_switch = false)
    (h2 : ∃ es, t2 = t1 ++ es ∧ ∀ e ∈ es, e.is_switch = false) :
    ∃ es, t2 = t0 ++ es ∧ ∀ e ∈ es, e.is_switch = false := by
  obtain ⟨a, ha, hqa⟩ := h1
  obtain ⟨b, hb, hqb⟩ := h2
  refine ⟨a ++ b, by rw [hb, ha, List.append_assoc], ?_⟩
  intro e he
  rcases List.mem_append.1 he with he | he
  · exact hqa e he
  · exact hqb e he

theorem quiet_refl (t0 : List Event) :
    ∃ es, t0 = t0 ++ es ∧ ∀ e ∈ es, e.is_switch = false :=
  ⟨[], by simp, by simp⟩

theorem handle_channel_buttons_mode (cfg : Config) (env : Env) (s : State) :
    (handle_channel_buttons cfg env s).mode = s.mode := by
  simp only [handle_channel_buttons]
  split_ifs <;> simp [channel_up_mode, channel_down_mode]

theorem handle_channel_buttons_quiet (cfg : Config) (env : Env) (s : State) :
    ∃ es, (handle_channel_buttons cfg env s).trace = s.trace ++ es
      ∧ ∀ e ∈ es, e.is_switch = false := by
  simp only [handle_channel_buttons]
  split_ifs
  · exact quiet_refl _
  · exact quiet_trans _ _ _ (channel_up_quiet cfg _ s.next.next) (channel_down_quiet cfg _ _)
  · exact channel_up_quiet cfg _ s.next.next
  · exact channel_down_quiet cfg _ s.next.next.next
  · exact quiet_refl _

theorem receive_body_mode (cfg : Config) (env : Env) (s : State) :
    (receive_body cfg env s).mode = s.mode := by
  simp only [receive_body, emit_mode, next_mode, handle_channel_buttons_mode,
    handle_volume_buttons_mode]

theorem receive_body_quiet (cfg : Config) (env : Env) (s : State) :
    ∃ es, (receive_body cfg env s).trace = s.trace ++ es
      ∧ ∀ e ∈ es, e.is_switch = false := by
  obtain ⟨es, hes, hq⟩ := handle_channel_buttons_quiet cfg env (handle_volume_buttons env s)
  rw [handle_volume_buttons_trace] at hes
  refine ⟨es ++ [Event.output_buffer_remove_samples 128,
    Event.output_write (receive_body cfg env s).samples 128], ?_, ?_⟩
  · simp only [receive_body, emit_trace, next_trace, hes, List.append_assoc, emit_samples]
    rfl
  · intro e he
    rcases List.mem_append.1 he with he | he
    · exact hq e he
    · simp only [List.mem_cons, List.mem_singleton, List.not_mem_nil, or_false] at he
      rcases he with he | he <;> rw [he] <;> rfl

theorem forward_samples_quiet (samples : List Int) (n : Int) :
    ∀ e ∈ forward_samples samples n, e.is_switch = false := by
  intro e he
  obtain ⟨x, hx⟩ := forward_samples_mem samples n e he
  rw [hx]; rfl

theorem speaker_sd_write_quiet (cfg : Config) (high : Bool) :
    ∀ e ∈ speaker_sd_write cfg high, e.is_switch = false := by
  intro e he
  unfold speaker_sd_write at he
  split at he
  · rw [List.mem_singleton.1 he]; rfl
  · exact absurd he (List.not_mem_nil _)

/-- One transition of `loop` takes the devices from the phase of its control
point to the phase of the control point it reaches. -/
theorem loop_step_phase (cfg : Config) (env : Env) (s : State) :
    ∃ es, (loop_step cfg env s).trace = s.trace ++ es
      ∧ phase_after s.mode.phase es = (loop_step cfg env s).mode.phase := by
  rcases hm : s.mode with _ | t0 | t0 | _
  · rw [loop_step_top cfg env s hm]
    split
    · exact ⟨_, transmit_entry_trace env s.next, rfl⟩
    · refine ⟨_, receive_entry_trace cfg env s.next, ?_⟩
      exact phase_after_quiet _ _ (speaker_sd_write_quiet cfg true)
  · rw [loop_step_transmitting cfg env s t0 hm]
    split
    · have ht := transmit_body_trace env (transmit_cond env t0 s).2
      rw [transmit_cond_trace] at ht
      refine ⟨_, ht, ?_⟩
      · rw [transmit_body_mode, transmit_cond_mode, hm]
        apply phase_after_quiet
        intro e he
        rcases List.mem_cons.1 he with he | he
        · rw [he]; rfl
        · exact forward_samples_quiet _ _ e he
    · have ht := receive_entry_trace cfg env (transmit_exit cfg (transmit_cond env t0 s).2)
      rw [transmit_exit_trace, transmit_cond_trace, List.append_assoc] at ht
      refine ⟨_, ht, ?_⟩
      rw [phase_after_append]
      exact phase_after_quiet _ _ (speaker_sd_write_quiet cfg true)
  · rw [loop_step_receiving cfg env s t0 hm]
    split
    · obtain ⟨es, hes, hq⟩ := receive_body_quiet cfg env (receive_cond env t0 s).2
      rw [receive_cond_trace] at hes
      refine ⟨es, hes, ?_⟩
      rw [receive_body_mode, receive_cond_mode, hm]
      exact phase_after_quiet _ _ hq
    · have ht := receive_exit_trace cfg (receive_cond env t0 s).2
      rw [receive_cond_trace] at ht
      exact ⟨_, ht, phase_after_quiet _ _ (speaker_sd_write_quiet cfg false)⟩
  · rw [loop_step_halted cfg env s hm]
    exact ⟨[], by simp, by rw [hm]; rfl⟩

/-- After any number of transitions the devices are in the phase of the
control point reached. -/
theorem loop_phase (cfg : Config) (env : Env) (s : State) (n : Nat) :
    ∃ es, (loop cfg env n s).trace = s.trace ++ es
      ∧ phase_after s.mode.phase es = (loop cfg env n s).mode.phase := by
  induction n with
  | zero => exact ⟨[], by simp [loop_zero], rfl⟩
  | succ n ih =>
    obtain ⟨es, hes, hp⟩ := ih
    obtain ⟨es2, hes2, hp2⟩ := loop_step_phase cfg env (loop cfg env n s)
    refine ⟨es ++ es2, ?_, ?_⟩
    · rw [loop_succ, hes2, hes, List.append_assoc]
    · rw [loop_succ, phase_after_append, hp, hp2]

/-- The calls of `begin` leave the devices in the phase of the control point
`begin` ends at: Output started when the task is created, nothing started when
the device reboots. -/
theorem begin_phase (cfg : Config) (env : Env) (junk : List Int) :
    phase_after Phase.fresh (begin cfg env junk).trace = (begin cfg env junk).mode.phase := by
  unfold begin
  cases cfg.USE_ESP_NOW <;> cases env.wifi_connected <;> rfl

theorem mode_phase_ne_bad (m : Mode) : m.phase ≠ Phase.bad := by
  cases m <;> simp [Mode.phase]

theorem begin_mode (cfg : Config) (env : Env) (junk : List Int) :
    (begin cfg env junk).mode = Mode.top ∨ (begin cfg env junk).mode = Mode.halted := by
  unfold begin
  cases cfg.USE_ESP_NOW <;> cases env.wifi_connected <;> simp

theorem loop_halted (cfg : Config) (env : Env) (s : State) (h : s.mode = Mode.halted)
    (n : Nat) : loop cfg env n s = s := by
  induction n with
  | zero => rfl
  | succ n ih => rw [loop_succ, ih, loop_step_halted cfg env s h]

/-! ## Claim on the half-duplex switch -/

/-- C2: in every execution of `begin` followed by any number of transitions
of `loop`, whatever the buttons, the clock and the sampler do: the trace is
the calls of `begin` followed by the calls of `loop`; every Sampler start in
it comes after an Output stop with no Output start in between; every Output
start among the calls of `loop` comes after a Sampler stop with no Sampler
start in between; and at no point of the trace are the Output device and the
Sampler both started. -/
theorem output_and_sampler_alternate (cfg : Config) (env : Env) (junk : List Int) (n : Nat) :
    ∃ loop_calls : List Event,
      (loop cfg env n (begin cfg env junk)).trace = (begin cfg env junk).trace ++ loop_calls
      ∧ (∀ pre post : List Event,
          (loop cfg env n (begin cfg env junk)).trace = pre ++ Event.input_start :: post →
          ∃ a b, pre = a ++ Event.output_stop :: b ∧ ∀ r, Event.output_start r ∉ b)
      ∧ (∀ (pre post : List Event) (r : Nat),
          loop_calls = pre ++ Event.output_start r :: post →
          ∃ a b, pre = a ++ Event.input_stop :: b ∧ Event.input_start ∉ b)
      ∧ (∀ pre post : List Event,
          (loop cfg env n (begin cfg env junk)).trace = pre ++ post →
          ¬ (output_started pre = true ∧ sampler_started pre = true)) := by
  obtain ⟨es, hes, hp⟩ := loop_phase cfg env (begin cfg env junk) n
  have hloop : phase_after (begin cfg env junk).mode.phase es ≠ Phase.bad := by
    rw [hp]; exact mode_phase_ne_bad _
  have hall : phase_after Phase.fresh (loop cfg env n (begin cfg env junk)).trace
      ≠ Phase.bad := by
    rw [hes, phase_after_append, begin_phase]
    exact hloop
  refine ⟨es, hes, ?_, ?_, ?_⟩
  · intro pre post hsplit
    rw [hsplit] at hall
    have h1 : phase_after Phase.fresh (pre ++ [Event.input_start]) ≠ Phase.bad := by
      apply phase_after_of_split _ _ post
      rw [List.append_assoc]
      exact hall
    rw [phase_after_snoc] at h1
    have h2 : phase_after Phase.fresh pre = Phase.output_stopped := by
      generalize phase_after Phase.fresh pre = q at h1
      cases q <;> simp [Phase.next] at h1 ⊢
    obtain ⟨a, b, hab, hb⟩ := output_stop_before Phase.fresh pre (by decide) h2
    refine ⟨a, b, hab, ?_⟩
    intro r hr
    exact Bool.noConfusion (hb _ hr)
  · intro pre post r hsplit
    rw [hsplit] at hloop
    have h1 : phase_after (begin cfg env junk).mode.phase (pre ++ [Event.output_start r])
        ≠ Phase.bad := by
      apply phase_after_of_split _ _ post
      rw [List.append_assoc]
      exact hloop
    rw [phase_after_snoc] at h1
    rcases begin_mode cfg env junk with hm | hm
    · rw [hm] at h1
      have h2 : phase_after Mode.top.phase pre = Phase.sampler_stopped := by
        have hnf : phase_after Mode.top.phase pre ≠ Phase.fresh := by
          intro hf
          exact absurd (phase_after_fresh _ _ hf) (by decide)
        generalize phase_after Mode.top.phase pre = q at h1 hnf
        cases q <;> simp [Phase.next] at h1 hnf ⊢
      obtain ⟨a, b, hab, hb⟩ := input_stop_before Mode.top.phase pre (by decide) h2
      refine ⟨a, b, hab, ?_⟩
      intro hr
      exact Bool.noConfusion (hb _ hr)
    · have hrun := loop_halted cfg env (begin cfg env junk) hm n
      rw [hrun] at hes
      have hnil : pre ++ Event.output_start r :: post = [] := by
        rw [← hsplit]
        exact (List.self_eq_append_right.1 hes)
      exact absurd hnil (by simp)
  · intro pre post hsplit
    rw [hsplit] at hall
    have h1 := phase_after_of_split _ pre post hall
    obtain ⟨ho, hs⟩ := started_of_phase pre h1
    rw [ho, hs]
    exact not_both_on _

/-- Witness of C2: the run of three transitions in `env_short_burst` contains a
whole transmit burst, so a Sampler start and an Output start of `loop`. -/
theorem output_and_sampler_alternate_witness :
    (Event.input_start ∈ (loop sample_config env_short_burst 3
        (begin sample_config env_short_burst [])).trace
      ∧ List.count (Event.output_start 16000) (loop sample_config env_short_burst 3
        (begin sample_config env_short_burst [])).trace = 2)
    ∧ ∃ loop_calls : List Event,
      (loop sample_config env_short_burst 3 (begin sample_config env_short_burst [])).trace
        = (begin sample_config env_short_burst []).trace ++ loop_calls
      ∧ (∀ pre post : List Event,
          (loop sample_config env_short_burst 3 (begin sample_config env_short_burst [])).trace
            = pre ++ Event.input_start :: post →
          ∃ a b, pre = a ++ Event.output_stop :: b ∧ ∀ r, Event.output_start r ∉ b)
      ∧ (∀ (pre post : List Event) (r : Nat),
          loop_calls = pre ++ Event.output_start r :: post →
          ∃ a b, pre = a ++ Event.input_stop :: b ∧ Event.input_start ∉ b)
      ∧ (∀ pre post : List Event,
          (loop sample_config env_short_burst 3 (begin sample_config env_short_burst [])).trace
            = pre ++ post →
          ¬ (output_started pre = true ∧ sampler_started pre = true)) :=
  ⟨⟨by decide, by decide⟩, output_and_sampler_alternate sample_config env_short_burst [] 3⟩

theorem volume_up_level (t : Nat) (a : Application) (h : a.m_volume_level ≤ 100) :
    (volume_up t a).m_volume_level = min (a.m_volume_level + 5) 100 := by
  unfold volume_up VOLUME_MAX u8
  split
  · simp only
    split <;> omega
  · omega

theorem volume_down_level (t : Nat) (a : Application) (h : a.m_volume_level ≤ 255)
    (h5 : a.m_volume_level = 0 ∨ 5 ≤ a.m_volume_level) :
    (volume_down t a).m_volume_level = a.m_volume_level - 5 := by
  unfold volume_down VOLUME_MIN u8
  split
  · simp only
    split <;> omega
  · omega

theorem handle_volume_buttons_app (env : Env) (s : State) :
    (handle_volume_buttons env s).app =
      if u32 ((u32 (env.millis s.tick) : Int) - s.app.m_last_volume_button_time)
          < VOLUME_BUTTON_DEBOUNCE_MS then s.app
      else if env.digitalRead (s.tick + 1) Pin.GPIO_VOLUME_UP_BUTTON = true then
        if env.digitalRead (s.tick + 2) Pin.GPIO_VOLUME_DOWN_BUTTON = true then
          volume_down (u32 (env.millis s.tick)) (volume_up (u32 (env.millis s.tick)) s.app)
        else volume_up (u32 (env.millis s.tick)) s.app
      else
        if env.digitalRead (s.tick + 2) Pin.GPIO_VOLUME_DOWN_BUTTON = true then
          volume_down (u32 (env.millis s.tick)) s.app
        else s.app := by
  have h2 : s.tick + 1 + 1 = s.tick + 2 := rfl
  by_cases hd : u32 ((u32 (env.millis s.tick) : Int) - s.app.m_last_volume_button_time)
      < VOLUME_BUTTON_DEBOUNCE_MS
  · simp [handle_volume_buttons, hd]
  · by_cases hu : env.digitalRead (s.tick + 1) Pin.GPIO_VOLUME_UP_BUTTON = true <;>
      by_cases hn : env.digitalRead (s.tick + 2) Pin.GPIO_VOLUME_DOWN_BUTTON = true <;>
      simp [handle_volume_buttons, hd, hu, hn, h2]

/-- Where the level is 0 or at least 5, and at most 100, a poll of
`handle_volume_buttons` keeps it within `[0,100]`: the subtraction of line 219
does not wrap there. -/
theorem handle_volume_buttons_level_le (env : Env) (s : State)
    (hv : s.app.m_volume_level ≤ 100)
    (h5 : s.app.m_volume_level = 0 ∨ 5 ≤ s.app.m_volume_level) :
    (handle_volume_buttons env s).app.m_volume_level ≤ 100 := by
  have hup := volume_up_level (u32 (env.millis s.tick)) s.app hv
  rw [handle_volume_buttons_app]
  split_ifs
  · exact hv
  · rw [volume_down_level _ _ (by omega) (by omega), hup]; omega
  · rw [hup]; omega
  · rw [volume_down_level _ _ (by omega) h5]; omega
  · exact hv

/-! ## Claims on `change_channel` -/

/-- The effect of an accepted channel change: the channel is set, and the
calls are the flashing-on call, then, when `USE_ESP_NOW` is defined, the
channel switch of the transport and the flashing-off call. -/
theorem change_channel_accepts (cfg : Config) (n : Nat) (s : State)
    (hlo : cfg.ESP_NOW_CHANNEL_MIN ≤ (n : Int)) (hhi : (n : Int) ≤ cfg.ESP_NOW_CHANNEL_MAX)
    (hne : n ≠ s.app.m_current_channel) :
    change_channel cfg n s =
      { s with
        app := { s.app with m_current_channel := n }
        trace := s.trace ++
          (if cfg.USE_ESP_NOW = true then
            [Event.set_is_flashing true 0x0000ff, Event.transport_change_channel n,
              Event.set_is_flashing false 0x0000ff]
          else [Event.set_is_flashing true 0x0000ff]) } := by
  have h1 : ¬ ((n : Int) < cfg.ESP_NOW_CHANNEL_MIN ∨ (n : Int) > cfg.ESP_NOW_CHANNEL_MAX) := by
    omega
  unfold change_channel
  rw [if_neg h1, if_neg hne]
  cases cfg.USE_ESP_NOW <;> simp [State.emit]

theorem change_channel_rejected (cfg : Config) (n : Nat) (s : State)
    (h : (n : Int) < cfg.ESP_NOW_CHANNEL_MIN ∨ (n : Int) > cfg.ESP_NOW_CHANNEL_MAX
      ∨ n = s.app.m_current_channel) :
    change_channel cfg n s = s := by
  unfold change_channel
  by_cases h1 : (n : Int) < cfg.ESP_NOW_CHANNEL_MIN ∨ (n : Int) > cfg.ESP_NOW_CHANNEL_MAX
  · rw [if_pos h1]
  · rw [if_neg h1]
    have h2 : n = s.app.m_current_channel := by
      rcases h with h | h | h
      · exact absurd (Or.inl h) h1
      · exact absurd (Or.inr h) h1
      · exact h
    rw [if_pos h2]

/-- C11: when the requested channel `n` is below `ESP_NOW_CHANNEL_MIN`, above
`ESP_NOW_CHANNEL_MAX` or equal to the current channel, `change_channel`
returns the state it was given: the current channel and every other part of
the coordinator state are as before and no call is recorded, so no transport
channel switch and no indicator operation is made. -/
theorem change_channel_ignores_invalid (cfg : Config) (n : Nat) (s : State)
    (h : (n : Int) < cfg.ESP_NOW_CHANNEL_MIN ∨ (n : Int) > cfg.ESP_NOW_CHANNEL_MAX
      ∨ n = s.app.m_current_channel) :
    change_channel cfg n s = s
    ∧ (change_channel cfg n s).app.m_current_channel = s.app.m_current_channel
    ∧ (change_channel cfg n s).trace = s.trace := by
  rw [change_channel_rejected cfg n s h]
  exact ⟨rfl, rfl, rfl⟩

/-- Witness of C11 on channel 5 of the range 1-11: the requests 0, 12 and 5. -/
theorem change_channel_ignores_invalid_witness :
    (((0 : Nat) : Int) < sample_config.ESP_NOW_CHANNEL_MIN
      ∧ ((12 : Nat) : Int) > sample_config.ESP_NOW_CHANNEL_MAX
      ∧ 5 = state_channel_five.app.m_current_channel)
    ∧ change_channel sample_config 0 state_channel_five = state_channel_five
    ∧ change_channel sample_config 12 state_channel_five = state_channel_five
    ∧ change_channel sample_config 5 state_channel_five = state_channel_five :=
  ⟨⟨by decide, by decide, by decide⟩,
    (change_channel_ignores_invalid sample_config 0 state_channel_five
      (Or.inl (by decide))).1,
    (change_channel_ignores_invalid sample_config 12 state_channel_five
      (Or.inr (Or.inl (by decide)))).1,
    (change_channel_ignores_invalid sample_config 5 state_channel_five
      (Or.inr (Or.inr (by decide)))).1⟩

/-- C12, as stated, fails without `USE_ESP_NOW`: on channel 5 the request 6 is
in the range 1-11 and differs from the current channel, the channel becomes 6,
but the only call made is the flashing-on call of the indicator; the transport
is not called. -/
theorem change_channel_udp_no_switch :
    sample_config_udp.ESP_NOW_CHANNEL_MIN ≤ ((6 : Nat) : Int)
    ∧ ((6 : Nat) : Int) ≤ sample_config_udp.ESP_NOW_CHANNEL_MAX
    ∧ 6 ≠ state_channel_five.app.m_current_channel
    ∧ (change_channel sample_config_udp 6 state_channel_five).app.m_current_channel = 6
    ∧ (change_channel sample_config_udp 6 state_channel_five).trace
        = [Event.set_is_flashing true 0x0000ff]
    ∧ List.count (Event.transport_change_channel 6)
        (change_channel sample_config_udp 6 state_channel_five).trace = 0 :=
  ⟨by decide, by decide, by decide, by decide, by decide, by decide⟩

/-- C12, amended: for a requested channel `n` in
`[ESP_NOW_CHANNEL_MIN, ESP_NOW_CHANNEL_MAX]` that differs from the current
channel, `change_channel` sets the current channel to `n`. When `USE_ESP_NOW`
is defined the calls it makes contain exactly one channel switch of the
transport, with argument `n`, and no channel switch with another argument.
When `USE_ESP_NOW` is not defined the transport is not called at all. -/
theorem change_channel_switches_once (cfg : Config) (n : Nat) (s : State)
    (hlo : cfg.ESP_NOW_CHANNEL_MIN ≤ (n : Int)) (hhi : (n : Int) ≤ cfg.ESP_NOW_CHANNEL_MAX)
    (hne : n ≠ s.app.m_current_channel) :
    (change_channel cfg n s).app.m_current_channel = n
    ∧ ∃ calls, (change_channel cfg n s).trace = s.trace ++ calls
      ∧ (cfg.USE_ESP_NOW = true →
          List.count (Event.transport_change_channel n) calls = 1
          ∧ ∀ m, Event.transport_change_channel m ∈ calls → m = n)
      ∧ (cfg.USE_ESP_NOW = false → ∀ m, Event.transport_change_channel m ∉ calls) := by
  rw [change_channel_accepts cfg n s hlo hhi hne]
  refine ⟨rfl, _, rfl, ?_, ?_⟩
  · intro h
    rw [if_pos h]
    constructor
    · simp [List.count_cons]
    · intro m hm
      simp at hm
      exact hm
  · intro h
    rw [if_neg (by simp [h])]
    intro m hm
    simp at hm

/-- Witness of C12 amended: with `USE_ESP_NOW`, on channel 5, the request 6. -/
theorem change_channel_switches_once_witness :
    (sample_config.ESP_NOW_CHANNEL_MIN ≤ ((6 : Nat) : Int)
      ∧ ((6 : Nat) : Int) ≤ sample_config.ESP_NOW_CHANNEL_MAX
      ∧ 6 ≠ state_channel_five.app.m_current_channel)
    ∧ (change_channel sample_config 6 state_channel_five).app.m_current_channel = 6
    ∧ (change_channel sample_config 6 state_channel_five).trace
        = [Event.set_is_flashing true 0x0000ff, Event.transport_change_channel 6,
            Event.set_is_flashing false 0x0000ff] :=
  ⟨⟨by decide, by decide, by decide⟩,
    (change_channel_switches_once sample_config 6 state_channel_five
      (by decide) (by decide) (by decide)).1,
    by decide⟩

/-- C15 fails without `USE_ESP_NOW`: on channel 5 the request 4 is accepted
(the channel becomes 4), and the only indicator call is the flashing-on call;
the flashing-off call of line 312 is not made, so the indicator is left
flashing when `change_channel` returns. -/
theorem change_channel_udp_leaves_flashing :
    sample_config_udp.USE_ESP_NOW = false
    ∧ (change_channel sample_config_udp 4 state_channel_five).app.m_current_channel = 4
    ∧ (change_channel sample_config_udp 4 state_channel_five).trace
        = [Event.set_is_flashing true 0x0000ff]
    ∧ Event.set_is_flashing false 0x0000ff
        ∉ (change_channel sample_config_udp 4 state_channel_five).trace :=
  ⟨by decide, by decide, by decide, by decide⟩

/-- With `USE_ESP_NOW` defined, the indicator calls of an accepted channel
change are the flashing-on call followed by the flashing-off call, both with
the channel-change colour. -/
theorem change_channel_espnow_indicator (cfg : Config) (n : Nat) (s : State)
    (hlo : cfg.ESP_NOW_CHANNEL_MIN ≤ (n : Int)) (hhi : (n : Int) ≤ cfg.ESP_NOW_CHANNEL_MAX)
    (hne : n ≠ s.app.m_current_channel) (hesp : cfg.USE_ESP_NOW = true) :
    (change_channel cfg n s).trace = s.trace ++
      [Event.set_is_flashing true 0x0000ff, Event.transport_change_channel n,
        Event.set_is_flashing false 0x0000ff] := by
  rw [change_channel_accepts cfg n s hlo hhi hne, if_pos hesp]

/-! ## The polls of the volume and channel buttons -/

theorem change_channel_tick (cfg : Config) (n : Nat) (s : State) :
    (change_channel cfg n s).tick = s.tick := by
  simp only [change_channel]
  split_ifs <;> rfl

theorem change_channel_samples (cfg : Config) (n : Nat) (s : State) :
    (change_channel cfg n s).samples = s.samples := by
  simp only [change_channel]
  split_ifs <;> rfl

/-- What `change_channel` does, in one statement: it touches nothing but the
current channel and the trace, and either returns the state unchanged or
accepts a request that is in range and differs from the current channel. -/
theorem change_channel_cases (cfg : Config) (n : Nat) (s : State) :
    (change_channel cfg n s).app.m_volume_level = s.app.m_volume_level
    ∧ (change_channel cfg n s).app.m_last_volume_button_time
        = s.app.m_last_volume_button_time
    ∧ (change_channel cfg n s).app.m_last_channel_button_time
        = s.app.m_last_channel_button_time
    ∧ (change_channel cfg n s = s
      ∨ (cfg.ESP_NOW_CHANNEL_MIN ≤ (n : Int) ∧ (n : Int) ≤ cfg.ESP_NOW_CHANNEL_MAX
        ∧ n ≠ s.app.m_current_channel
        ∧ (change_channel cfg n s).app.m_current_channel = n
        ∧ (change_channel cfg n s).trace = s.trace ++ channel_change_calls cfg n)) := by
  by_cases h : (n : Int) < cfg.ESP_NOW_CHANNEL_MIN ∨ (n : Int) > cfg.ESP_NOW_CHANNEL_MAX
      ∨ n = s.app.m_current_channel
  · rw [change_channel_rejected cfg n s h]
    exact ⟨rfl, rfl, rfl, Or.inl rfl⟩
  · have hlo : cfg.ESP_NOW_CHANNEL_MIN ≤ (n : Int) := by omega
    have hhi : (n : Int) ≤ cfg.ESP_NOW_CHANNEL_MAX := by omega
    have hne : n ≠ s.app.m_current_channel := fun e => h (Or.inr (Or.inr e))
    rw [change_channel_accepts cfg n s hlo hhi hne]
    exact ⟨rfl, rfl, rfl, Or.inr ⟨hlo, hhi, hne, rfl, rfl⟩⟩

theorem channel_up_tick (cfg : Config) (t : Nat) (s : State) :
    (channel_up cfg t s).tick = s.tick := by
  simp only [channel_up]
  split_ifs
  · exact change_channel_tick cfg _ s
  · rfl

theorem channel_down_tick (cfg : Config) (t : Nat) (s : State) :
    (channel_down cfg t s).tick = s.tick := by
  simp only [channel_down]
  split_ifs
  · exact change_channel_tick cfg _ s
  · rfl

/-- The poll of the channel buttons as a function of what it reads: the clock
at query `s.tick`, the up button at `s.tick + 1`, the down button at
`s.tick + 2`. -/
theorem handle_channel_buttons_eq (cfg : Config) (env : Env) (s : State) :
    handle_channel_buttons cfg env s =
      if u32 ((u32 (env.millis s.tick) : Int) - s.app.m_last_channel_button_time)
          < CHANNEL_BUTTON_DEBOUNCE_MS then s.next
      else if env.digitalRead (s.tick + 1) Pin.GPIO_CHANNEL_UP_BUTTON = true then
        if env.digitalRead (s.tick + 2) Pin.GPIO_CHANNEL_DOWN_BUTTON = true then
          channel_down cfg (u32 (env.millis s.tick))
            (channel_up cfg (u32 (env.millis s.tick)) s.next.next).next
        else (channel_up cfg (u32 (env.millis s.tick)) s.next.next).next
      else
        if env.digitalRead (s.tick + 2) Pin.GPIO_CHANNEL_DOWN_BUTTON = true then
          channel_down cfg (u32 (env.millis s.tick)) s.next.next.next
        else s.next.next.next := by
  have h2 : s.tick + 1 + 1 = s.tick + 2 := rfl
  by_cases hd : u32 ((u32 (env.millis s.tick) : Int) - s.app.m_last_channel_button_time)
      < CHANNEL_BUTTON_DEBOUNCE_MS
  · simp [handle_channel_buttons, hd]
  · by_cases hu : env.digitalRead (s.tick + 1) Pin.GPIO_CHANNEL_UP_BUTTON = true <;>
      by_cases hn : env.digitalRead (s.tick + 2) Pin.GPIO_CHANNEL_DOWN_BUTTON = true <;>
      simp [handle_channel_buttons, hd, hu, hn, h2, channel_up_tick]


theorem volume_up_at_max (t : Nat) (a : Application) (h : a.m_volume_level = VOLUME_MAX) :
    volume_up t a = a := by
  unfold volume_up
  rw [if_neg (by omega)]

theorem volume_down_at_min (t : Nat) (a : Application) (h : a.m_volume_level = VOLUME_MIN) :
    volume_down t a = a := by
  unfold volume_down
  rw [if_neg (by omega)]

theorem channel_up_at_max (cfg : Config) (t : Nat) (s : State)
    (h : (s.app.m_current_channel : Int) = cfg.ESP_NOW_CHANNEL_MAX) :
    channel_up cfg t s = s := by
  unfold channel_up
  rw [if_neg (by omega)]

theorem channel_down_at_min (cfg : Config) (t : Nat) (s : State)
    (h : (s.app.m_current_channel : Int) = cfg.ESP_NOW_CHANNEL_MIN) :
    channel_down cfg t s = s := by
  unfold channel_down
  rw [if_neg (by omega)]

/-! ## Claim on ignored polls -/

/-- C17: a poll of `handle_volume_buttons` that comes less than 200 ms of clock
time (modulo `2^32`) after the last accepted volume action, or in which the
only active volume button is up at level `VOLUME_MAX` or down at level
`VOLUME_MIN`, leaves all four data members (volume level, current channel, both
last-accepted times) and the trace of device calls unchanged; and so does a
poll of `handle_channel_buttons` that comes less than 200 ms after the last
accepted channel action, or in which the only active channel button is up at
`ESP_NOW_CHANNEL_MAX` or down at `ESP_NOW_CHANNEL_MIN`. -/
theorem ignored_polls_change_nothing (cfg : Config) (env : Env) (s : State) :
    (u32 ((u32 (env.millis s.tick) : Int) - s.app.m_last_volume_button_time)
          < VOLUME_BUTTON_DEBOUNCE_MS
        ∨ (env.digitalRead (s.tick + 1) Pin.GPIO_VOLUME_UP_BUTTON = true
          ∧ env.digitalRead (s.tick + 2) Pin.GPIO_VOLUME_DOWN_BUTTON = false
          ∧ s.app.m_volume_level = VOLUME_MAX)
        ∨ (env.digitalRead (s.tick + 1) Pin.GPIO_VOLUME_UP_BUTTON = false
          ∧ env.digitalRead (s.tick + 2) Pin.GPIO_VOLUME_DOWN_BUTTON = true
          ∧ s.app.m_volume_level = VOLUME_MIN) →
      (handle_volume_buttons env s).app = s.app
      ∧ (handle_volume_buttons env s).trace = s.trace)
    ∧ (u32 ((u32 (env.millis s.tick) : Int) - s.app.m_last_channel_button_time)
          < CHANNEL_BUTTON_DEBOUNCE_MS
        ∨ (env.digitalRead (s.tick + 1) Pin.GPIO_CHANNEL_UP_BUTTON = true
          ∧ env.digitalRead (s.tick + 2) Pin.GPIO_CHANNEL_DOWN_BUTTON = false
          ∧ (s.app.m_current_channel : Int) = cfg.ESP_NOW_CHANNEL_MAX)
        ∨ (env.digitalRead (s.tick + 1) Pin.GPIO_CHANNEL_UP_BUTTON = false
          ∧ env.digitalRead (s.tick + 2) Pin.GPIO_CHANNEL_DOWN_BUTTON = true
          ∧ (s.app.m_current_channel : Int) = cfg.ESP_NOW_CHANNEL_MIN) →
      (handle_channel_buttons cfg env s).app = s.app
      ∧ (handle_channel_buttons cfg env s).trace = s.trace) := by
  constructor
  · intro h
    refine ⟨?_, handle_volume_buttons_trace env s⟩
    rw [handle_volume_buttons_app]
    by_cases hs : u32 ((u32 (env.millis s.tick) : Int) - s.app.m_last_volume_button_time)
        < VOLUME_BUTTON_DEBOUNCE_MS
    · rw [if_pos hs]
    · rw [if_neg hs]
      rcases h with h | ⟨hu, hd, hl⟩ | ⟨hu, hd, hl⟩
      · exact absurd h hs
      · rw [if_pos hu, if_neg (by simp [hd]), volume_up_at_max _ _ hl]
      · rw [if_neg (by simp [hu]), if_pos hd, volume_down_at_min _ _ hl]
  · intro h
    rw [handle_channel_buttons_eq]
    by_cases hs : u32 ((u32 (env.millis s.tick) : Int) - s.app.m_last_channel_button_time)
        < CHANNEL_BUTTON_DEBOUNCE_MS
    · rw [if_pos hs]
      exact ⟨rfl, rfl⟩
    · rw [if_neg hs]
      rcases h with h | ⟨hu, hd, hl⟩ | ⟨hu, hd, hl⟩
      · exact absurd h hs
      · rw [if_pos hu, if_neg (by simp [hd]), channel_up_at_max cfg _ s.next.next hl]
        exact ⟨rfl, rfl⟩
      · rw [if_neg (by simp [hu]), if_pos hd, channel_down_at_min cfg _ s.next.next.next hl]
        exact ⟨rfl, rfl⟩


theorem mem_channel_change_calls (cfg : Config) (n ch : Nat)
    (h : Event.transport_change_channel ch ∈ channel_change_calls cfg n) : ch = n := by
  unfold channel_change_calls at h
  split at h <;> simp at h
  exact h

/-- The up branch of the channel poll on a channel within the valid range. -/
theorem channel_up_range (cfg : Config) (t : Nat) (s : State)
    (hlo : cfg.ESP_NOW_CHANNEL_MIN ≤ (s.app.m_current_channel : Int))
    (hhi : (s.app.m_current_channel : Int) ≤ cfg.ESP_NOW_CHANNEL_MAX) :
    cfg.ESP_NOW_CHANNEL_MIN ≤ ((channel_up cfg t s).app.m_current_channel : Int)
    ∧ ((channel_up cfg t s).app.m_current_channel : Int) ≤ cfg.ESP_NOW_CHANNEL_MAX
    ∧ (cfg.ESP_NOW_CHANNEL_MAX ≤ 255 →
        (channel_up cfg t s).app.m_current_channel = s.app.m_current_channel
        ∨ ((s.app.m_current_channel : Int) < cfg.ESP_NOW_CHANNEL_MAX
          ∧ (channel_up cfg t s).app.m_current_channel = s.app.m_current_channel + 1))
    ∧ ∃ calls, (channel_up cfg t s).trace = s.trace ++ calls
        ∧ ∀ ch, Event.transport_change_channel ch ∈ calls →
            cfg.ESP_NOW_CHANNEL_MIN ≤ (ch : Int) ∧ (ch : Int) ≤ cfg.ESP_NOW_CHANNEL_MAX := by
  unfold channel_up
  split
  · next hlt =>
    obtain ⟨_, _, _, hc⟩ :=
      change_channel_cases cfg (u8 ((s.app.m_current_channel : Int) + 1)) s
    rcases hc with hc | ⟨h1, h2, _, h4, h5⟩
    · rw [hc]
      exact ⟨hlo, hhi, fun _ => Or.inl rfl, [], by simp, by simp⟩
    · simp only [h4, h5]
      refine ⟨h1, h2, ?_, _, rfl, ?_⟩
      · intro hmax
        right
        refine ⟨hlt, ?_⟩
        unfold u8
        omega
      · intro ch hch
        rw [mem_channel_change_calls cfg _ ch hch]
        exact ⟨h1, h2⟩
  · exact ⟨hlo, hhi, fun _ => Or.inl rfl, [], by simp, by simp⟩

/-- The down branch of the channel poll on a channel within the valid range. -/
theorem channel_down_range (cfg : Config) (t : Nat) (s : State)
    (hlo : cfg.ESP_NOW_CHANNEL_MIN ≤ (s.app.m_current_channel : Int))
    (hhi : (s.app.m_current_channel : Int) ≤ cfg.ESP_NOW_CHANNEL_MAX) :
    cfg.ESP_NOW_CHANNEL_MIN ≤ ((channel_down cfg t s).app.m_current_channel : Int)
    ∧ ((channel_down cfg t s).app.m_current_channel : Int) ≤ cfg.ESP_NOW_CHANNEL_MAX
    ∧ (0 ≤ cfg.ESP_NOW_CHANNEL_MIN → cfg.ESP_NOW_CHANNEL_MAX ≤ 255 →
        (channel_down cfg t s).app.m_current_channel = s.app.m_current_channel
        ∨ (cfg.ESP_NOW_CHANNEL_MIN < (s.app.m_current_channel : Int)
          ∧ (channel_down cfg t s).app.m_current_channel + 1 = s.app.m_current_channel))
    ∧ ∃ calls, (channel_down cfg t s).trace = s.trace ++ calls
        ∧ ∀ ch, Event.transport_change_channel ch ∈ calls →
            cfg.ESP_NOW_CHANNEL_MIN ≤ (ch : Int) ∧ (ch : Int) ≤ cfg.ESP_NOW_CHANNEL_MAX := by
  unfold channel_down
  split
  · next hgt =>
    obtain ⟨_, _, _, hc⟩ :=
      change_channel_cases cfg (u8 ((s.app.m_current_channel : Int) - 1)) s
    rcases hc with hc | ⟨h1, h2, _, h4, h5⟩
    · rw [hc]
      exact ⟨hlo, hhi, fun _ _ => Or.inl rfl, [], by simp, by simp⟩
    · simp only [h4, h5]
      refine ⟨h1, h2, ?_, _, rfl, ?_⟩
      · intro hmin hmax
        right
        refine ⟨hgt, ?_⟩
        unfold u8
        omega
      · intro ch hch
        rw [mem_channel_change_calls cfg _ ch hch]
        exact ⟨h1, h2⟩
  · exact ⟨hlo, hhi, fun _ _ => Or.inl rfl, [], by simp, by simp⟩


/-! ## Claim on the channel range -/

/-- C16: if the current channel is within
`[ESP_NOW_CHANNEL_MIN, ESP_NOW_CHANNEL_MAX]`, then after a poll of
`handle_channel_buttons`, whatever the buttons and the clock read, the current
channel is still within that range and every channel passed to the channel
switch of the transport during the poll is within it; and, the bounds being
channel numbers of the 8-bit channel type (`0 ≤ MIN`, `MAX ≤ 255`), the
current channel differs from its previous value by at most one. -/
theorem channel_poll_stays_in_range (cfg : Config) (env : Env) (s : State)
    (hlo : cfg.ESP_NOW_CHANNEL_MIN ≤ (s.app.m_current_channel : Int))
    (hhi : (s.app.m_current_channel : Int) ≤ cfg.ESP_NOW_CHANNEL_MAX) :
    cfg.ESP_NOW_CHANNEL_MIN ≤ ((handle_channel_buttons cfg env s).app.m_current_channel : Int)
    ∧ ((handle_channel_buttons cfg env s).app.m_current_channel : Int)
        ≤ cfg.ESP_NOW_CHANNEL_MAX
    ∧ (0 ≤ cfg.ESP_NOW_CHANNEL_MIN → cfg.ESP_NOW_CHANNEL_MAX ≤ 255 →
        (handle_channel_buttons cfg env s).app.m_current_channel = s.app.m_current_channel
        ∨ (handle_channel_buttons cfg env s).app.m_current_channel
            = s.app.m_current_channel + 1
        ∨ (handle_channel_buttons cfg env s).app.m_current_channel + 1
            = s.app.m_current_channel)
    ∧ ∃ calls, (handle_channel_buttons cfg env s).trace = s.trace ++ calls
        ∧ ∀ ch, Event.transport_change_channel ch ∈ calls →
            cfg.ESP_NOW_CHANNEL_MIN ≤ (ch : Int) ∧ (ch : Int) ≤ cfg.ESP_NOW_CHANNEL_MAX := by
  rw [handle_channel_buttons_eq]
  have hnone : ∃ calls : List Event, s.trace = s.trace ++ calls
      ∧ ∀ ch, Event.transport_change_channel ch ∈ calls →
          cfg.ESP_NOW_CHANNEL_MIN ≤ (ch : Int) ∧ (ch : Int) ≤ cfg.ESP_NOW_CHANNEL_MAX :=
    ⟨[], by simp, by simp⟩
  split
  · exact ⟨hlo, hhi, fun _ _ => Or.inl rfl, hnone⟩
  · split
    · obtain ⟨u1, u2, u3, cu, hcu, hqu⟩ :=
        channel_up_range cfg (u32 (env.millis s.tick)) s.next.next hlo hhi
      split
      · obtain ⟨d1, d2, d3, cd, hcd, hqd⟩ :=
          channel_down_range cfg (u32 (env.millis s.tick))
            (channel_up cfg (u32 (env.millis s.tick)) s.next.next).next u1 u2
        refine ⟨d1, d2, ?_, cu ++ cd, ?_, ?_⟩
        · intro hmin hmax
          have hu := u3 hmax
          have hd := d3 hmin hmax
          simp only [next_app] at hu hd ⊢
          omega
        · rw [hcd, next_trace, hcu, next_trace, next_trace, List.append_assoc]
        · intro ch hch
          rcases List.mem_append.1 hch with h | h
          · exact hqu ch h
          · exact hqd ch h
      · refine ⟨u1, u2, ?_, cu, hcu, hqu⟩
        intro _ hmax
        have hu := u3 hmax
        simp only [next_app] at hu ⊢
        omega
    · split
      · obtain ⟨d1, d2, d3, cd, hcd, hqd⟩ :=
          channel_down_range cfg (u32 (env.millis s.tick)) s.next.next.next hlo hhi
        refine ⟨d1, d2, ?_, cd, hcd, hqd⟩
        intro hmin hmax
        have hd := d3 hmin hmax
        simp only [next_app] at hd ⊢
        omega
      · exact ⟨hlo, hhi, fun _ _ => Or.inl rfl, hnone⟩


theorem u32_lt (x : Int) : u32 x < 4294967296 := by
  unfold u32
  omega

/-- A poll more than 200 ms after the last accepted action is not suppressed. -/
theorem not_suppressed_of_later (t last : Nat) (ht : t < 4294967296) (h : last + 200 < t) :
    ¬ u32 ((t : Int) - (last : Int)) < 200 := by
  unfold u32
  omega

theorem volume_up_time (t : Nat) (a : Application) (h : a.m_volume_level < VOLUME_MAX) :
    (volume_up t a).m_last_volume_button_time = t
    ∧ (volume_up t a).m_current_channel = a.m_current_channel
    ∧ (volume_up t a).m_last_channel_button_time = a.m_last_channel_button_time := by
  unfold volume_up
  rw [if_pos h]
  exact ⟨rfl, rfl, rfl⟩

theorem volume_down_time (t : Nat) (a : Application) (h : a.m_volume_level > VOLUME_MIN) :
    (volume_down t a).m_last_volume_button_time = t
    ∧ (volume_down t a).m_current_channel = a.m_current_channel
    ∧ (volume_down t a).m_last_channel_button_time = a.m_last_channel_button_time := by
  unfold volume_down
  rw [if_pos h]
  exact ⟨rfl, rfl, rfl⟩

/-- The up branch of the channel poll below the maximum, on a channel within
the valid range: the channel rises by one, the time is recorded and the calls
of an accepted change are made. -/
theorem channel_up_accepts (cfg : Config) (t : Nat) (s : State)
    (hlo : cfg.ESP_NOW_CHANNEL_MIN ≤ (s.app.m_current_channel : Int))
    (hmax : cfg.ESP_NOW_CHANNEL_MAX ≤ 255)
    (hlt : (s.app.m_current_channel : Int) < cfg.ESP_NOW_CHANNEL_MAX) :
    (channel_up cfg t s).app.m_current_channel = s.app.m_current_channel + 1
    ∧ (channel_up cfg t s).app.m_last_channel_button_time = t
    ∧ (channel_up cfg t s).trace
        = s.trace ++ channel_change_calls cfg (s.app.m_current_channel + 1) := by
  have hu8 : u8 ((s.app.m_current_channel : Int) + 1) = s.app.m_current_channel + 1 := by
    unfold u8
    omega
  unfold channel_up
  rw [if_pos hlt, hu8,
    change_channel_accepts cfg _ s (by push_cast; omega) (by push_cast; omega) (by omega)]
  exact ⟨rfl, rfl, rfl⟩

/-- The down branch of the channel poll above the minimum, on a channel within
the valid range: the channel falls by one, the time is recorded and the calls
of an accepted change are made. -/
theorem channel_down_accepts (cfg : Config) (t : Nat) (s : State)
    (hhi : (s.app.m_current_channel : Int) ≤ cfg.ESP_NOW_CHANNEL_MAX)
    (hmin : 0 ≤ cfg.ESP_NOW_CHANNEL_MIN) (hmax : cfg.ESP_NOW_CHANNEL_MAX ≤ 255)
    (hgt : cfg.ESP_NOW_CHANNEL_MIN < (s.app.m_current_channel : Int)) :
    (channel_down cfg t s).app.m_current_channel + 1 = s.app.m_current_channel
    ∧ (channel_down cfg t s).app.m_last_channel_button_time = t
    ∧ (channel_down cfg t s).trace
        = s.trace ++ channel_change_calls cfg (s.app.m_current_channel - 1) := by
  have hu8 : u8 ((s.app.m_current_channel : Int) - 1) = s.app.m_current_channel - 1 := by
    unfold u8
    omega
  unfold channel_down
  rw [if_pos hgt, hu8,
    change_channel_accepts cfg _ s (by omega) (by omega) (by omega)]
  refine ⟨?_, rfl, rfl⟩
  show s.app.m_current_channel - 1 + 1 = s.app.m_current_channel
  omega

/-! ## Claim on presses after the debounce window -/

/-- C14: let the volume level be a multiple of 5 within `[0,100]` and the
current channel be within `[ESP_NOW_CHANNEL_MIN, ESP_NOW_CHANNEL_MAX]`, the
bounds being 8-bit channel numbers. If the last volume action was accepted at
clock value `t1` and a poll of `handle_volume_buttons` reads the clock at `t2`
with `t2 - t1 > 200`, the difference being the unsigned 32-bit one the code
computes (so a clock that wrapped between `t1` and `t2` is covered), then
with only volume-up active below `VOLUME_MAX` the level rises by 5, with only
volume-down active above `VOLUME_MIN` it falls by 5, and in both cases the
last-accepted time of the volume control becomes `t2`. Likewise for
`handle_channel_buttons`: with only channel-up active below the maximum the
channel rises by 1, with only channel-down active above the minimum it falls
by 1, and the last-accepted time of the channel control becomes `t2`. -/
theorem press_after_window_registers (cfg : Config) (env : Env) (s : State)
    (hlevel : s.app.m_volume_level ≤ 100 ∧ 5 ∣ s.app.m_volume_level)
    (hlo : cfg.ESP_NOW_CHANNEL_MIN ≤ (s.app.m_current_channel : Int))
    (hhi : (s.app.m_current_channel : Int) ≤ cfg.ESP_NOW_CHANNEL_MAX)
    (hmin : 0 ≤ cfg.ESP_NOW_CHANNEL_MIN) (hmax : cfg.ESP_NOW_CHANNEL_MAX ≤ 255) :
    (200 < u32 ((u32 (env.millis s.tick) : Int) - (s.app.m_last_volume_button_time : Int)) →
      (env.digitalRead (s.tick + 1) Pin.GPIO_VOLUME_UP_BUTTON = true
        ∧ env.digitalRead (s.tick + 2) Pin.GPIO_VOLUME_DOWN_BUTTON = false
        ∧ s.app.m_volume_level < VOLUME_MAX →
        (handle_volume_buttons env s).app.m_volume_level = s.app.m_volume_level + 5
        ∧ (handle_volume_buttons env s).app.m_last_volume_button_time
            = u32 (env.millis s.tick))
      ∧ (env.digitalRead (s.tick + 1) Pin.GPIO_VOLUME_UP_BUTTON = false
        ∧ env.digitalRead (s.tick + 2) Pin.GPIO_VOLUME_DOWN_BUTTON = true
        ∧ VOLUME_MIN < s.app.m_volume_level →
        (handle_volume_buttons env s).app.m_volume_level + 5 = s.app.m_volume_level
        ∧ (handle_volume_buttons env s).app.m_last_volume_button_time
            = u32 (env.millis s.tick)))
    ∧ (200 < u32 ((u32 (env.millis s.tick) : Int) - (s.app.m_last_channel_button_time : Int)) →
      (env.digitalRead (s.tick + 1) Pin.GPIO_CHANNEL_UP_BUTTON = true
        ∧ env.digitalRead (s.tick + 2) Pin.GPIO_CHANNEL_DOWN_BUTTON = false
        ∧ (s.app.m_current_channel : Int) < cfg.ESP_NOW_CHANNEL_MAX →
        (handle_channel_buttons cfg env s).app.m_current_channel
            = s.app.m_current_channel + 1
        ∧ (handle_channel_buttons cfg env s).app.m_last_channel_button_time
            = u32 (env.millis s.tick))
      ∧ (env.digitalRead (s.tick + 1) Pin.GPIO_CHANNEL_UP_BUTTON = false
        ∧ env.digitalRead (s.tick + 2) Pin.GPIO_CHANNEL_DOWN_BUTTON = true
        ∧ cfg.ESP_NOW_CHANNEL_MIN < (s.app.m_current_channel : Int) →
        (handle_channel_buttons cfg env s).app.m_current_channel + 1
            = s.app.m_current_channel
        ∧ (handle_channel_buttons cfg env s).app.m_last_channel_button_time
            = u32 (env.millis s.tick))) := by
  obtain ⟨hle, hdvd⟩ := hlevel
  constructor
  · intro hwin
    have hns : ¬ u32 ((u32 (env.millis s.tick) : Int) - s.app.m_last_volume_button_time)
        < VOLUME_BUTTON_DEBOUNCE_MS := by
      unfold VOLUME_BUTTON_DEBOUNCE_MS
      omega
    rw [handle_volume_buttons_app, if_neg hns]
    constructor
    · rintro ⟨hu, hd, hl⟩
      rw [if_pos hu, if_neg (by simp [hd])]
      refine ⟨?_, (volume_up_time _ _ hl).1⟩
      rw [volume_up_level _ _ hle]
      unfold VOLUME_MAX at hl
      omega
    · rintro ⟨hu, hd, hl⟩
      rw [if_neg (by simp [hu]), if_pos hd]
      refine ⟨?_, (volume_down_time _ _ hl).1⟩
      unfold VOLUME_MIN at hl
      rw [volume_down_level _ _ (by omega) (by omega)]
      omega
  · intro hwin
    have hns : ¬ u32 ((u32 (env.millis s.tick) : Int) - s.app.m_last_channel_button_time)
        < CHANNEL_BUTTON_DEBOUNCE_MS := by
      unfold CHANNEL_BUTTON_DEBOUNCE_MS
      omega
    rw [handle_channel_buttons_eq, if_neg hns]
    constructor
    · rintro ⟨hu, hd, hl⟩
      rw [if_pos hu, if_neg (by simp [hd])]
      obtain ⟨h1, h2, _⟩ :=
        channel_up_accepts cfg (u32 (env.millis s.tick)) s.next.next hlo hmax hl
      exact ⟨h1, h2⟩
    · rintro ⟨hu, hd, hl⟩
      rw [if_neg (by simp [hu]), if_pos hd]
      obtain ⟨h1, h2, _⟩ :=
        channel_down_accepts cfg (u32 (env.millis s.tick)) s.next.next.next hhi hmin hmax hl
      exact ⟨h1, h2⟩


/-- Witness of C17 on channel 5 at level 50 with the clock at 100 ms (both
polls suppressed), and at the upper bounds with only the up buttons active. -/
theorem ignored_polls_change_nothing_witness :
    (u32 ((u32 (env_early_press.millis state_channel_five.tick) : Int)
          - state_channel_five.app.m_last_volume_button_time) < VOLUME_BUTTON_DEBOUNCE_MS
      ∧ (env_up_buttons.digitalRead (state_at_maxima.tick + 1) Pin.GPIO_CHANNEL_UP_BUTTON = true
        ∧ env_up_buttons.digitalRead (state_at_maxima.tick + 2) Pin.GPIO_CHANNEL_DOWN_BUTTON
            = false
        ∧ (state_at_maxima.app.m_current_channel : Int) = sample_config.ESP_NOW_CHANNEL_MAX))
    ∧ (handle_volume_buttons env_early_press state_channel_five).app = state_channel_five.app
    ∧ (handle_channel_buttons sample_config env_up_buttons state_at_maxima).app
        = state_at_maxima.app
    ∧ (handle_channel_buttons sample_config env_up_buttons state_at_maxima).trace
        = state_at_maxima.trace :=
  ⟨⟨by decide, by decide, by decide, by decide⟩,
    ((ignored_polls_change_nothing sample_config env_early_press state_channel_five).1
      (Or.inl (by decide))).1,
    ((ignored_polls_change_nothing sample_config env_up_buttons state_at_maxima).2
      (Or.inr (Or.inl ⟨by decide, by decide, by decide⟩))).1,
    ((ignored_polls_change_nothing sample_config env_up_buttons state_at_maxima).2
      (Or.inr (Or.inl ⟨by decide, by decide, by decide⟩))).2⟩

/-- Witness of C16 on channel 5 of the range 1-11 with both channel buttons
active: the channel goes to 6 and back to 5. -/
theorem channel_poll_stays_in_range_witness :
    (sample_config.ESP_NOW_CHANNEL_MIN ≤ (state_channel_five.app.m_current_channel : Int)
      ∧ (state_channel_five.app.m_current_channel : Int) ≤ sample_config.ESP_NOW_CHANNEL_MAX)
    ∧ (handle_channel_buttons sample_config env_all_buttons state_channel_five).trace
        = [Event.set_is_flashing true 0x0000ff, Event.transport_change_channel 6,
            Event.set_is_flashing false 0x0000ff, Event.set_is_flashing true 0x0000ff,
            Event.transport_change_channel 5, Event.set_is_flashing false 0x0000ff]
    ∧ sample_config.ESP_NOW_CHANNEL_MIN
        ≤ ((handle_channel_buttons sample_config env_all_buttons
            state_channel_five).app.m_current_channel : Int)
    ∧ ((handle_channel_buttons sample_config env_all_buttons
          state_channel_five).app.m_current_channel : Int)
        ≤ sample_config.ESP_NOW_CHANNEL_MAX :=
  ⟨⟨by decide, by decide⟩, by decide,
    (channel_poll_stays_in_range sample_config env_all_buttons state_channel_five
      (by decide) (by decide)).1,
    (channel_poll_stays_in_range sample_config env_all_buttons state_channel_five
      (by decide) (by decide)).2.1⟩

/-- Witness of C14 at level 50 on channel 5. With last actions at 0 and the
clock at 1000, the up buttons give level 55 and channel 6, the down buttons 45
and 4. With last actions at `2^32 - 100` and the clock, wrapped, at 150 (250 ms
later), the up buttons give level 55 and channel 6 and both times become 150. -/
theorem press_after_window_registers_witness :
    ((state_channel_five.app.m_volume_level ≤ 100 ∧ 5 ∣ state_channel_five.app.m_volume_level)
      ∧ sample_config.ESP_NOW_CHANNEL_MIN ≤ (state_channel_five.app.m_current_channel : Int)
      ∧ (state_channel_five.app.m_current_channel : Int) ≤ sample_config.ESP_NOW_CHANNEL_MAX
      ∧ 0 ≤ sample_config.ESP_NOW_CHANNEL_MIN ∧ sample_config.ESP_NOW_CHANNEL_MAX ≤ 255
      ∧ 200 < u32 ((u32 (env_up_buttons.millis state_channel_five.tick) : Int)
          - (state_channel_five.app.m_last_volume_button_time : Int))
      ∧ 200 < u32 ((u32 (env_up_after_wrap.millis state_before_wrap.tick) : Int)
          - (state_before_wrap.app.m_last_volume_button_time : Int)))
    ∧ ((handle_volume_buttons env_up_buttons state_channel_five).app.m_volume_level = 50 + 5
      ∧ (handle_volume_buttons env_up_buttons state_channel_five).app.m_last_volume_button_time
          = 1000)
    ∧ ((handle_volume_buttons env_down_buttons state_channel_five).app.m_volume_level + 5 = 50
      ∧ (handle_volume_buttons env_down_buttons
          state_channel_five).app.m_last_volume_button_time = 1000)
    ∧ ((handle_channel_buttons sample_config env_up_buttons
          state_channel_five).app.m_current_channel = 5 + 1
      ∧ (handle_channel_buttons sample_config env_up_buttons
          state_channel_five).app.m_last_channel_button_time = 1000)
    ∧ ((handle_channel_buttons sample_config env_down_buttons
          state_channel_five).app.m_current_channel + 1 = 5
      ∧ (handle_channel_buttons sample_config env_down_buttons
          state_channel_five).app.m_last_channel_button_time = 1000)
    ∧ ((handle_volume_buttons env_up_after_wrap state_before_wrap).app.m_volume_level = 50 + 5
      ∧ (handle_volume_buttons env_up_after_wrap state_before_wrap).app.m_last_volume_button_time
          = 150)
    ∧ ((handle_channel_buttons sample_config env_up_after_wrap
          state_before_wrap).app.m_current_channel = 5 + 1
      ∧ (handle_channel_buttons sample_config env_up_after_wrap
          state_before_wrap).app.m_last_channel_button_time = 150) :=
  ⟨⟨⟨by decide, by decide⟩, by decide, by decide, by decide, by decide, by decide,
      by decide⟩,
    ((press_after_window_registers sample_config env_up_buttons state_channel_five
      ⟨by decide, by decide⟩ (by decide) (by decide) (by decide) (by decide)).1
        (by decide)).1 ⟨by decide, by decide, by decide⟩,
    ((press_after_window_registers sample_config env_down_buttons state_channel_five
      ⟨by decide, by decide⟩ (by decide) (by decide) (by decide) (by decide)).1
        (by decide)).2 ⟨by decide, by decide, by decide⟩,
    ((press_after_window_registers sample_config env_up_buttons state_channel_five
      ⟨by decide, by decide⟩ (by decide) (by decide) (by decide) (by decide)).2
        (by decide)).1 ⟨by decide, by decide, by decide⟩,
    ((press_after_window_registers sample_config env_down_buttons state_channel_five
      ⟨by decide, by decide⟩ (by decide) (by decide) (by decide) (by decide)).2
        (by decide)).2 ⟨by decide, by decide, by decide⟩,
    ((press_after_window_registers sample_config env_up_after_wrap state_before_wrap
      ⟨by decide, by decide⟩ (by decide) (by decide) (by decide) (by decide)).1
        (by decide)).1 ⟨by decide, by decide, by decide⟩,
    ((press_after_window_registers sample_config env_up_after_wrap state_before_wrap
      ⟨by decide, by decide⟩ (by decide) (by decide) (by decide) (by decide)).2
        (by decide)).1 ⟨by decide, by decide, by decide⟩⟩


/-! ## The volume level stays a multiple of 5 in `[0,100]` -/

theorem volume_up_level_ok (t : Nat) (a : Application) (h : level_ok a.m_volume_level) :
    level_ok (volume_up t a).m_volume_level := by
  obtain ⟨hd, hle⟩ := h
  unfold level_ok
  rw [volume_up_level t a hle]
  omega

theorem volume_down_level_ok (t : Nat) (a : Application) (h : level_ok a.m_volume_level) :
    level_ok (volume_down t a).m_volume_level := by
  obtain ⟨hd, hle⟩ := h
  unfold level_ok
  rw [volume_down_level t a (by omega) (by omega)]
  omega

theorem handle_volume_buttons_level_ok (env : Env) (s : State)
    (h : level_ok s.app.m_volume_level) :
    level_ok (handle_volume_buttons env s).app.m_volume_level := by
  rw [handle_volume_buttons_app]
  split_ifs
  · exact h
  · exact volume_down_level_ok _ _ (volume_up_level_ok _ _ h)
  · exact volume_up_level_ok _ _ h
  · exact volume_down_level_ok _ _ h
  · exact h

theorem volume_polls_level_ok (envs : List Env) (s : State)
    (h : level_ok s.app.m_volume_level) :
    level_ok (volume_polls envs s).app.m_volume_level := by
  unfold volume_polls
  induction envs generalizing s with
  | nil => exact h
  | cons env envs ih => exact ih _ (handle_volume_buttons_level_ok env s h)

theorem channel_up_volume (cfg : Config) (t : Nat) (s : State) :
    (channel_up cfg t s).app.m_volume_level = s.app.m_volume_level
    ∧ (channel_up cfg t s).app.m_last_volume_button_time = s.app.m_last_volume_button_time := by
  unfold channel_up
  split
  · obtain ⟨h1, h2, _, _⟩ :=
      change_channel_cases cfg (u8 ((s.app.m_current_channel : Int) + 1)) s
    exact ⟨h1, h2⟩
  · exact ⟨rfl, rfl⟩

theorem channel_down_volume (cfg : Config) (t : Nat) (s : State) :
    (channel_down cfg t s).app.m_volume_level = s.app.m_volume_level
    ∧ (channel_down cfg t s).app.m_last_volume_button_time
        = s.app.m_last_volume_button_time := by
  unfold channel_down
  split
  · obtain ⟨h1, h2, _, _⟩ :=
      change_channel_cases cfg (u8 ((s.app.m_current_channel : Int) - 1)) s
    exact ⟨h1, h2⟩
  · exact ⟨rfl, rfl⟩

/-- The channel poll leaves the volume level and its timestamp alone. -/
theorem handle_channel_buttons_volume (cfg : Config) (env : Env) (s : State) :
    (handle_channel_buttons cfg env s).app.m_volume_level = s.app.m_volume_level
    ∧ (handle_channel_buttons cfg env s).app.m_last_volume_button_time
        = s.app.m_last_volume_button_time := by
  rw [handle_channel_buttons_eq]
  split_ifs
  · exact ⟨rfl, rfl⟩
  · have hd := channel_down_volume cfg (u32 (env.millis s.tick))
      (channel_up cfg (u32 (env.millis s.tick)) s.next.next).next
    have hu := channel_up_volume cfg (u32 (env.millis s.tick)) s.next.next
    exact ⟨hd.1.trans hu.1, hd.2.trans hu.2⟩
  · exact channel_up_volume cfg (u32 (env.millis s.tick)) s.next.next
  · exact channel_down_volume cfg (u32 (env.millis s.tick)) s.next.next.next
  · exact ⟨rfl, rfl⟩

/-- The volume poll leaves the channel and its timestamp alone. -/
theorem handle_volume_buttons_channel (env : Env) (s : State) :
    (handle_volume_buttons env s).app.m_current_channel = s.app.m_current_channel
    ∧ (handle_volume_buttons env s).app.m_last_channel_button_time
        = s.app.m_last_channel_button_time := by
  simp only [handle_volume_buttons, volume_up, volume_down]
  split_ifs <;> exact ⟨rfl, rfl⟩

theorem receive_body_level (cfg : Config) (env : Env) (s : State) :
    (receive_body cfg env s).app.m_volume_level
      = (handle_volume_buttons env s).app.m_volume_level := by
  simp only [receive_body, emit_app, next_app]
  exact (handle_channel_buttons_volume cfg env (handle_volume_buttons env s)).1

theorem transmit_cond_app (env : Env) (t0 : Nat) (s : State) :
    (transmit_cond env t0 s).2.app = s.app := by
  rw [transmit_cond_snd]; split <;> rfl

theorem receive_cond_app (env : Env) (t0 : Nat) (s : State) :
    (receive_cond env t0 s).2.app = s.app := by
  rw [receive_cond_snd]; split <;> rfl

theorem transmit_body_app (env : Env) (s : State) : (transmit_body env s).app = s.app := rfl

theorem transmit_exit_app (cfg : Config) (s : State) : (transmit_exit cfg s).app = s.app := rfl

theorem receive_entry_app (cfg : Config) (env : Env) (s : State) :
    (receive_entry cfg env s).app = s.app := rfl

theorem receive_exit_app (cfg : Config) (s : State) : (receive_exit cfg s).app = s.app := rfl

theorem transmit_entry_app (env : Env) (s : State) : (transmit_entry env s).app = s.app := rfl

theorem loop_step_level_ok (cfg : Config) (env : Env) (s : State)
    (h : level_ok s.app.m_volume_level) :
    level_ok (loop_step cfg env s).app.m_volume_level := by
  rcases hm : s.mode with _ | t0 | t0 | _
  · rw [loop_step_top cfg env s hm]
    split
    · exact h
    · exact h
  · rw [loop_step_transmitting cfg env s t0 hm]
    split
    · rw [transmit_body_app, transmit_cond_app]; exact h
    · rw [receive_entry_app, transmit_exit_app, transmit_cond_app]; exact h
  · rw [loop_step_receiving cfg env s t0 hm]
    split
    · rw [receive_body_level]
      apply handle_volume_buttons_level_ok
      rw [receive_cond_app]; exact h
    · rw [receive_exit_app, receive_cond_app]; exact h
  · rw [loop_step_halted cfg env s hm]; exact h

theorem loop_level_ok (cfg : Config) (env : Env) (n : Nat) (s : State)
    (h : level_ok s.app.m_volume_level) :
    level_ok (loop cfg env n s).app.m_volume_level := by
  induction n with
  | zero => exact h
  | succ n ih => rw [loop_succ]; exact loop_step_level_ok cfg env _ ih

theorem begin_app (cfg : Config) (env : Env) (junk : List Int) :
    (begin cfg env junk).app = Application.init cfg := by
  unfold begin
  cases cfg.USE_ESP_NOW <;> cases env.wifi_connected <;> rfl

/-! ## Claim on the reachable volume levels -/

/-- C19: starting from the constructor's state (volume level 50), after any
finite sequence of polls of `handle_volume_buttons`, each with arbitrary button
readings and clock value, the volume level is a multiple of 5 within `[0,100]`;
and the same holds in every state `loop` reaches after `begin`. So the 8-bit
level never wraps below 0 nor exceeds 100 in a reachable state. -/
theorem volume_level_multiple_of_five (cfg : Config) (s : State)
    (hinit : s.app = Application.init cfg) :
    (∀ envs : List Env,
      5 ∣ (volume_polls envs s).app.m_volume_level
      ∧ (volume_polls envs s).app.m_volume_level ≤ 100)
    ∧ (∀ (env : Env) (junk : List Int) (n : Nat),
      5 ∣ (loop cfg env n (begin cfg env junk)).app.m_volume_level
      ∧ (loop cfg env n (begin cfg env junk)).app.m_volume_level ≤ 100) := by
  have h50 : level_ok (Application.init cfg).m_volume_level :=
    ⟨(by decide : 5 ∣ 50), (by decide : 50 ≤ 100)⟩
  constructor
  · intro envs
    exact volume_polls_level_ok envs s (by rw [hinit]; exact h50)
  · intro env junk n
    exact loop_level_ok cfg env n _ (by rw [begin_app]; exact h50)


/-- Witness of C19: from level 50, seven accepted volume-up polls give level
85, and a volume-down poll then gives 80. -/
theorem volume_level_multiple_of_five_witness :
    state_constructed.app = Application.init sample_config
    ∧ (volume_polls polls_up_then_down state_constructed).app.m_volume_level = 80
    ∧ 5 ∣ (volume_polls polls_up_then_down state_constructed).app.m_volume_level
    ∧ (volume_polls polls_up_then_down state_constructed).app.m_volume_level ≤ 100 :=
  ⟨rfl, by decide,
    ((volume_level_multiple_of_five sample_config state_constructed rfl).1
      polls_up_then_down).1,
    ((volume_level_multiple_of_five sample_config state_constructed rfl).1
      polls_up_then_down).2⟩

/-! ## Claim on the transmit burst leaving the controls alone -/

theorem speaker_sd_write_no_switch (cfg : Config) (high : Bool) (ch : Nat) :
    Event.transport_change_channel ch ∉ speaker_sd_write cfg high := by
  unfold speaker_sd_write
  split <;> simp

theorem forward_samples_no_switch (samples : List Int) (n : Int) (ch : Nat) :
    Event.transport_change_channel ch ∉ forward_samples samples n := by
  intro h
  obtain ⟨x, hx⟩ := forward_samples_mem samples n _ h
  exact Event.noConfusion hx

/-- A transition that starts at the top of the loop or at the head of the
transmit loop leaves the four data members as they were and makes no channel
switch. -/
theorem loop_step_outside_receive (cfg : Config) (env : Env) (s : State)
    (h : s.mode = Mode.top ∨ s.mode.is_transmitting = true) :
    (loop_step cfg env s).app = s.app
    ∧ ∃ calls, (loop_step cfg env s).trace = s.trace ++ calls
        ∧ ∀ ch, Event.transport_change_channel ch ∉ calls := by
  rcases hm : s.mode with _ | t0 | t0 | _
  · rw [loop_step_top cfg env s hm]
    split
    · exact ⟨rfl, _, transmit_entry_trace env s.next, by simp⟩
    · exact ⟨rfl, _, receive_entry_trace cfg env s.next,
        fun ch => speaker_sd_write_no_switch cfg true ch⟩
  · rw [loop_step_transmitting cfg env s t0 hm]
    split
    · have ht := transmit_body_trace env (transmit_cond env t0 s).2
      rw [transmit_cond_trace] at ht
      refine ⟨by rw [transmit_body_app, transmit_cond_app], _, ht, ?_⟩
      intro ch hch
      rcases List.mem_cons.1 hch with h1 | h1
      · exact Event.noConfusion h1
      · exact forward_samples_no_switch _ _ ch h1
    · have ht := receive_entry_trace cfg env (transmit_exit cfg (transmit_cond env t0 s).2)
      rw [transmit_exit_trace, transmit_cond_trace, List.append_assoc] at ht
      refine ⟨by rw [receive_entry_app, transmit_exit_app, transmit_cond_app], _, ht, ?_⟩
      intro ch hch
      rcases List.mem_append.1 hch with h1 | h1
      · simp at h1
      · exact speaker_sd_write_no_switch cfg true ch h1
  · rw [hm] at h
    simp [Mode.is_transmitting] at h
  · rw [hm] at h
    simp [Mode.is_transmitting] at h

/-- C18: in a transmit burst, entered from the top of the loop with the
transmit button active and kept for `m + 1` evaluations of the transmit loop
condition, the four data members (volume level, current channel, both
last-accepted times) are what they were before the burst at every control
point of the burst and at the control point the next transition reaches (the
head of the receive loop, when the burst ends there), and no call made up to
that point is a channel switch of the transport. This holds for every
environment, so whatever the volume and channel buttons read. -/
theorem transmit_burst_leaves_controls (cfg : Config) (env : Env) (s : State) (m : Nat)
    (htop : s.mode = Mode.top)
    (hin : ∀ j, j ≤ m → (loop cfg env (j + 1) s).mode.is_transmitting = true) :
    ∀ j, j ≤ m + 2 →
      (loop cfg env j s).app = s.app
      ∧ ∃ calls, (loop cfg env j s).trace = s.trace ++ calls
          ∧ ∀ ch, Event.transport_change_channel ch ∉ calls := by
  intro j
  induction j with
  | zero =>
    intro _
    exact ⟨rfl, [], by simp [loop_zero], by simp⟩
  | succ j ih =>
    intro hj
    obtain ⟨happ, calls, htr, hno⟩ := ih (by omega)
    have hmode : (loop cfg env j s).mode = Mode.top
        ∨ (loop cfg env j s).mode.is_transmitting = true := by
      rcases Nat.eq_zero_or_pos j with h0 | hpos
      · left; rw [h0, loop_zero]; exact htop
      · right
        have := hin (j - 1) (by omega)
        rwa [Nat.sub_add_cancel hpos] at this
    obtain ⟨happ2, calls2, htr2, hno2⟩ := loop_step_outside_receive cfg env _ hmode
    rw [loop_succ]
    refine ⟨happ2.trans happ, calls ++ calls2, ?_, ?_⟩
    · rw [htr2, htr, List.append_assoc]
    · intro ch hch
      rcases List.mem_append.1 hch with h1 | h1
      · exact hno ch h1
      · exact hno2 ch h1

/-- Witness of C18: the burst of `env_short_burst`, with one iteration of the
transmit loop. -/
theorem transmit_burst_leaves_controls_witness :
    (state_after_begin.mode = Mode.top
      ∧ (∀ j, j ≤ 1 →
          (loop sample_config env_short_burst (j + 1) state_after_begin).mode.is_transmitting
            = true)
      ∧ (loop sample_config env_short_burst (1 + 2) state_after_begin).mode.is_receiving
          = true)
    ∧ (loop sample_config env_short_burst 3 state_after_begin).app = state_after_begin.app :=
  ⟨⟨by decide, by decide, by decide⟩,
    (transmit_burst_leaves_controls sample_config env_short_burst state_after_begin 1
      (by decide) (by decide) 3 (by decide)).1⟩


/-! ## Claim on attenuation -/

/-- The truncated quotient of `s * v` by 100, for `0 ≤ v ≤ 100`, lies between
0 and `s`. -/
theorem tdiv_between (v : Nat) (s : Int) (hv : v ≤ 100) :
    (0 ≤ s → 0 ≤ Int.tdiv (s * (v : Int)) 100 ∧ Int.tdiv (s * (v : Int)) 100 ≤ s)
    ∧ (s ≤ 0 → s ≤ Int.tdiv (s * (v : Int)) 100 ∧ Int.tdiv (s * (v : Int)) 100 ≤ 0) := by
  have h0 : (0 : Int) ≤ (v : Int) := Int.ofNat_nonneg v
  have h1 : (v : Int) ≤ 100 := by exact_mod_cast hv
  rw [tdiv_hundred]
  constructor
  · intro hs
    have hp0 : 0 ≤ s * (v : Int) := Int.mul_nonneg hs h0
    have hp1 : s * (v : Int) ≤ 100 * s := by nlinarith
    rw [if_pos hp0]
    generalize s * (v : Int) = p at hp0 hp1
    omega
  · intro hs
    have hp0 : s * (v : Int) ≤ 0 := Int.mul_nonpos_of_nonpos_of_nonneg hs h0
    have hp1 : 100 * s ≤ s * (v : Int) := by nlinarith
    generalize s * (v : Int) = p at hp0 hp1
    split <;> omega

/-- C20: for every volume level `v` in `[0,100]` and every chunk of 16-bit
samples, the cell `i` after `apply_volume_to_samples` is no larger in absolute
value than the sample `s` it held, and it is 0 or has the sign of `s`; and a
cell that held `-s` and is scaled along with it ends up the negative of the
cell that held `s`. -/
theorem apply_volume_attenuates (v : Nat) (samples : List Int) (count : Int) (i : Nat)
    (hv : v ≤ 100) (hs : ∀ x ∈ samples, -32768 ≤ x ∧ x ≤ 32767)
    (hi : i < samples.length) :
    |(apply_volume_to_samples v samples count).getD i 0| ≤ |samples.getD i 0|
    ∧ ((apply_volume_to_samples v samples count).getD i 0 = 0
      ∨ (0 < (apply_volume_to_samples v samples count).getD i 0 ∧ 0 < samples.getD i 0)
      ∨ ((apply_volume_to_samples v samples count).getD i 0 < 0 ∧ samples.getD i 0 < 0))
    ∧ (∀ j, j < samples.length → samples.getD j 0 = - samples.getD i 0 →
        ((j : Int) < count ↔ (i : Int) < count) →
        (apply_volume_to_samples v samples count).getD j 0
          = - (apply_volume_to_samples v samples count).getD i 0) := by
  obtain ⟨hpos, hneg⟩ := tdiv_between v (samples.getD i 0) hv
  have hval := apply_volume_value v samples count i hv hs hi
  have hbetween : (0 ≤ samples.getD i 0 →
        0 ≤ (apply_volume_to_samples v samples count).getD i 0
        ∧ (apply_volume_to_samples v samples count).getD i 0 ≤ samples.getD i 0)
      ∧ (samples.getD i 0 ≤ 0 →
        samples.getD i 0 ≤ (apply_volume_to_samples v samples count).getD i 0
        ∧ (apply_volume_to_samples v samples count).getD i 0 ≤ 0) := by
    rw [hval]
    split
    · exact ⟨hpos, hneg⟩
    · exact ⟨fun h => ⟨h, le_refl _⟩, fun h => ⟨le_refl _, h⟩⟩
  refine ⟨?_, ?_, ?_⟩
  · rcases le_total 0 (samples.getD i 0) with h | h
    · obtain ⟨h1, h2⟩ := hbetween.1 h
      rw [abs_of_nonneg h1, abs_of_nonneg h]
      exact h2
    · obtain ⟨h1, h2⟩ := hbetween.2 h
      rw [abs_of_nonpos h2, abs_of_nonpos h]
      omega
  · rcases le_total 0 (samples.getD i 0) with h | h
    · obtain ⟨h1, h2⟩ := hbetween.1 h
      omega
    · obtain ⟨h1, h2⟩ := hbetween.2 h
      omega
  · intro j hj hsym hcount
    rw [apply_volume_value v samples count j hv hs hj, hval, hsym]
    by_cases hc : (i : Int) < count
    · rw [if_pos hc, if_pos (hcount.2 hc), neg_mul, Int.neg_tdiv]
    · rw [if_neg hc, if_neg (fun h => hc (hcount.1 h))]

/-- Witness of C20 at level 37 on the chunk `[-201, 201]`: both cells lose the
same amount, `-201` becomes `-74` and `201` becomes `74`. -/
theorem apply_volume_attenuates_witness :
    (37 ≤ 100 ∧ (∀ x ∈ [(-201 : Int), 201], -32768 ≤ x ∧ x ≤ 32767)
      ∧ 0 < [(-201 : Int), 201].length)
    ∧ apply_volume_to_samples 37 [-201, 201] 128 = [-74, 74]
    ∧ |(apply_volume_to_samples 37 [-201, 201] 128).getD 0 0| ≤ |[(-201 : Int), 201].getD 0 0| :=
  ⟨⟨by decide, by decide, by decide⟩, by decide,
    (apply_volume_attenuates 37 [-201, 201] 128 0 (by decide) (by decide) (by decide)).1⟩


/-! ## Debounce over a sequence of polls -/

/-- Spacing of accepted polls, for any poll function whose last-accepted time
is either kept or set to the clock value read, and is set, outside the
debounce window, whenever the poll accepts. -/
theorem poll_log_spacing {σ : Type} (poll : Env → σ → σ) (clock : Env → σ → Nat)
    (accepted : Env → σ → Bool) (last : σ → Nat)
    (hclk : ∀ env s, clock env s < 4294967296)
    (hstep : ∀ env s, last (poll env s) = last s ∨ last (poll env s) = clock env s)
    (hacc : ∀ env s, accepted env s = true →
      last (poll env s) = clock env s
      ∧ ¬ u32 ((clock env s : Int) - (last s : Int)) < 200)
    (envs : List Env) (s : σ)
    (hmono : ((poll_log poll clock accepted envs s).map Prod.fst).Pairwise (fun a b => a ≤ b))
    (hlast : ∀ c ∈ (poll_log poll clock accepted envs s).map Prod.fst, last s ≤ c) :
    (accepted_times (poll_log poll clock accepted envs s)).Pairwise (fun a b => a + 200 ≤ b)
    ∧ ∀ a ∈ accepted_times (poll_log poll clock accepted envs s), last s + 200 ≤ a := by
  induction envs generalizing s with
  | nil => exact ⟨List.Pairwise.nil, by simp [poll_log, accepted_times]⟩
  | cons env envs ih =>
    simp only [poll_log, List.map_cons, List.pairwise_cons, List.mem_cons,
      forall_eq_or_imp] at hmono hlast
    obtain ⟨hhead, hrest⟩ := hmono
    obtain ⟨hl0, hlrest⟩ := hlast
    have hlast' : ∀ c ∈ (poll_log poll clock accepted envs (poll env s)).map Prod.fst,
        last (poll env s) ≤ c := by
      intro c hc
      rcases hstep env s with h | h
      · rw [h]; exact hlrest c hc
      · rw [h]; exact hhead c hc
    obtain ⟨ih1, ih2⟩ := ih (poll env s) hrest hlast'
    have hge : last s ≤ last (poll env s) := by
      rcases hstep env s with h | h
      · rw [h]
      · rw [h]; exact hl0
    cases hb : accepted env s
    · have hlog : accepted_times (poll_log poll clock accepted (env :: envs) s)
          = accepted_times (poll_log poll clock accepted envs (poll env s)) := by
        simp [poll_log, accepted_times, hb]
      rw [hlog]
      exact ⟨ih1, fun a ha => le_trans (by omega) (ih2 a ha)⟩
    · obtain ⟨ht, hns⟩ := hacc env s hb
      have hlog : accepted_times (poll_log poll clock accepted (env :: envs) s)
          = clock env s
            :: accepted_times (poll_log poll clock accepted envs (poll env s)) := by
        simp [poll_log, accepted_times, hb]
      have hgap : last s + 200 ≤ clock env s := by
        have := hclk env s
        unfold u32 at hns
        omega
      rw [hlog]
      refine ⟨List.Pairwise.cons ?_ ih1, ?_⟩
      · intro a ha
        have := ih2 a ha
        omega
      · intro a ha
        rcases List.mem_cons.1 ha with h | h
        · rw [h]; exact hgap
        · have := ih2 a h
          omega


theorem volume_up_cases (t : Nat) (a : Application) :
    volume_up t a = a ∨ (volume_up t a).m_last_volume_button_time = t := by
  unfold volume_up
  split
  · exact Or.inr rfl
  · exact Or.inl rfl

theorem volume_down_cases (t : Nat) (a : Application) :
    volume_down t a = a ∨ (volume_down t a).m_last_volume_button_time = t := by
  unfold volume_down
  split
  · exact Or.inr rfl
  · exact Or.inl rfl

/-- A volume poll either changes no data member, or it runs outside the
debounce window and records the clock value it read. -/
theorem handle_volume_buttons_cases (env : Env) (s : State) :
    (handle_volume_buttons env s).app = s.app
    ∨ ((handle_volume_buttons env s).app.m_last_volume_button_time = u32 (env.millis s.tick)
      ∧ ¬ u32 ((u32 (env.millis s.tick) : Int) - (s.app.m_last_volume_button_time : Int))
          < 200) := by
  rw [handle_volume_buttons_app]
  by_cases hs : u32 ((u32 (env.millis s.tick) : Int) - s.app.m_last_volume_button_time)
      < VOLUME_BUTTON_DEBOUNCE_MS
  · rw [if_pos hs]; exact Or.inl rfl
  · rw [if_neg hs]
    have hs' : ¬ u32 ((u32 (env.millis s.tick) : Int)
        - (s.app.m_last_volume_button_time : Int)) < 200 := hs
    split
    · split
      · rcases volume_down_cases (u32 (env.millis s.tick))
          (volume_up (u32 (env.millis s.tick)) s.app) with hd | hd
        · rw [hd]
          rcases volume_up_cases (u32 (env.millis s.tick)) s.app with hu | hu
          · exact Or.inl hu
          · exact Or.inr ⟨hu, hs'⟩
        · exact Or.inr ⟨hd, hs'⟩
      · rcases volume_up_cases (u32 (env.millis s.tick)) s.app with hu | hu
        · exact Or.inl hu
        · exact Or.inr ⟨hu, hs'⟩
    · split
      · rcases volume_down_cases (u32 (env.millis s.tick)) s.app with hd | hd
        · exact Or.inl hd
        · exact Or.inr ⟨hd, hs'⟩
      · exact Or.inl rfl

theorem channel_up_cases (cfg : Config) (t : Nat) (s : State) :
    channel_up cfg t s = s ∨ (channel_up cfg t s).app.m_last_channel_button_time = t := by
  unfold channel_up
  split
  · exact Or.inr rfl
  · exact Or.inl rfl

theorem channel_down_cases (cfg : Config) (t : Nat) (s : State) :
    channel_down cfg t s = s ∨ (channel_down cfg t s).app.m_last_channel_button_time = t := by
  unfold channel_down
  split
  · exact Or.inr rfl
  · exact Or.inl rfl

/-- A channel poll either changes no data member and makes no call, or it runs
outside the debounce window and records the clock value it read. -/
theorem handle_channel_buttons_cases (cfg : Config) (env : Env) (s : State) :
    ((handle_channel_buttons cfg env s).app = s.app
      ∧ (handle_channel_buttons cfg env s).trace = s.trace)
    ∨ ((handle_channel_buttons cfg env s).app.m_last_channel_button_time
        = u32 (env.millis s.tick)
      ∧ ¬ u32 ((u32 (env.millis s.tick) : Int) - (s.app.m_last_channel_button_time : Int))
          < 200) := by
  rw [handle_channel_buttons_eq]
  by_cases hs : u32 ((u32 (env.millis s.tick) : Int) - s.app.m_last_channel_button_time)
      < CHANNEL_BUTTON_DEBOUNCE_MS
  · rw [if_pos hs]; exact Or.inl ⟨rfl, rfl⟩
  · rw [if_neg hs]
    have hs' : ¬ u32 ((u32 (env.millis s.tick) : Int)
        - (s.app.m_last_channel_button_time : Int)) < 200 := hs
    split
    · split
      · rcases channel_down_cases cfg (u32 (env.millis s.tick))
          (channel_up cfg (u32 (env.millis s.tick)) s.next.next).next with hd | hd
        · rw [hd]
          rcases channel_up_cases cfg (u32 (env.millis s.tick)) s.next.next with hu | hu
          · rw [hu]; exact Or.inl ⟨rfl, rfl⟩
          · exact Or.inr ⟨hu, hs'⟩
        · exact Or.inr ⟨hd, hs'⟩
      · rcases channel_up_cases cfg (u32 (env.millis s.tick)) s.next.next with hu | hu
        · rw [hu]; exact Or.inl ⟨rfl, rfl⟩
        · exact Or.inr ⟨hu, hs'⟩
    · split
      · rcases channel_down_cases cfg (u32 (env.millis s.tick)) s.next.next.next with hd | hd
        · rw [hd]; exact Or.inl ⟨rfl, rfl⟩
        · exact Or.inr ⟨hd, hs'⟩
      · exact Or.inl ⟨rfl, rfl⟩

theorem handle_volume_buttons_last (env : Env) (s : State) :
    (handle_volume_buttons env s).app.m_last_volume_button_time
        = s.app.m_last_volume_button_time
    ∨ (handle_volume_buttons env s).app.m_last_volume_button_time
        = u32 (env.millis s.tick) := by
  rcases handle_volume_buttons_cases env s with h | h
  · left; rw [h]
  · exact Or.inr h.1

theorem handle_channel_buttons_last (cfg : Config) (env : Env) (s : State) :
    (handle_channel_buttons cfg env s).app.m_last_channel_button_time
        = s.app.m_last_channel_button_time
    ∨ (handle_channel_buttons cfg env s).app.m_last_channel_button_time
        = u32 (env.millis s.tick) := by
  rcases handle_channel_buttons_cases cfg env s with h | h
  · left; rw [h.1]
  · exact Or.inr h.1

/-! ## Claim on the spacing of accepted actions -/

/-- C13, as stated, fails within one poll: at level 50 on channel 5, outside
the debounce window, with every button active, the poll of
`handle_channel_buttons` reads the clock once and switches the channel twice
(to 6 and back to 5), and the poll of `handle_volume_buttons` changes the level
twice (to 55 and back to 50). The two accepted actions are 0 ms apart. -/
theorem both_buttons_two_actions_in_one_poll :
    (handle_channel_buttons sample_config env_all_buttons state_channel_five).trace
        = [Event.set_is_flashing true 0x0000ff, Event.transport_change_channel 6,
            Event.set_is_flashing false 0x0000ff, Event.set_is_flashing true 0x0000ff,
            Event.transport_change_channel 5, Event.set_is_flashing false 0x0000ff]
    ∧ (handle_channel_buttons sample_config env_all_buttons state_channel_five).tick
        = state_channel_five.tick + 3
    ∧ (handle_volume_buttons env_all_buttons state_channel_five).app
        = volume_down 1000 (volume_up 1000 state_channel_five.app)
    ∧ state_channel_five.app.m_volume_level = 50
    ∧ (volume_up 1000 state_channel_five.app).m_volume_level = 55
    ∧ (volume_down 1000 (volume_up 1000 state_channel_five.app)).m_volume_level = 50 :=
  ⟨by decide, by decide, by decide, by decide, by decide, by decide⟩

/-- Spacing of accepted polls along non-decreasing clock values, wherever the
last accepted action lies: once a poll accepts, its clock value is the
last-accepted time and the polls after it fall under `poll_log_spacing`. -/
theorem poll_log_spacing_from_any {σ : Type} (poll : Env → σ → σ) (clock : Env → σ → Nat)
    (accepted : Env → σ → Bool) (last : σ → Nat)
    (hclk : ∀ env s, clock env s < 4294967296)
    (hstep : ∀ env s, last (poll env s) = last s ∨ last (poll env s) = clock env s)
    (hacc : ∀ env s, accepted env s = true →
      last (poll env s) = clock env s
      ∧ ¬ u32 ((clock env s : Int) - (last s : Int)) < 200)
    (envs : List Env) (s : σ)
    (hmono : ((poll_log poll clock accepted envs s).map Prod.fst).Pairwise
      (fun a b => a ≤ b)) :
    (accepted_times (poll_log poll clock accepted envs s)).Pairwise
      (fun a b => a + 200 ≤ b) := by
  induction envs generalizing s with
  | nil => exact List.Pairwise.nil
  | cons env envs ih =>
    simp only [poll_log, List.map_cons, List.pairwise_cons] at hmono
    obtain ⟨hhead, hrest⟩ := hmono
    cases hb : accepted env s
    · have hlog : accepted_times (poll_log poll clock accepted (env :: envs) s)
          = accepted_times (poll_log poll clock accepted envs (poll env s)) := by
        simp [poll_log, accepted_times, hb]
      rw [hlog]
      exact ih (poll env s) hrest
    · obtain ⟨ht, _⟩ := hacc env s hb
      have hlog : accepted_times (poll_log poll clock accepted (env :: envs) s)
          = clock env s
            :: accepted_times (poll_log poll clock accepted envs (poll env s)) := by
        simp [poll_log, accepted_times, hb]
      have hlast : ∀ c ∈ (poll_log poll clock accepted envs (poll env s)).map Prod.fst,
          last (poll env s) ≤ c := by
        intro c hc
        rw [ht]
        exact hhead c hc
      obtain ⟨h1, h2⟩ := poll_log_spacing poll clock accepted last hclk hstep hacc envs
        (poll env s) hrest hlast
      rw [hlog]
      refine List.Pairwise.cons ?_ h1
      intro a ha
      have := h2 a ha
      omega

/-- C13, amended: in any sequence of polls of `handle_volume_buttons` whose
clock values are non-decreasing, with arbitrary button readings, the clock
values of any two polls that accept an action are at least 200 ms apart;
likewise for any sequence of polls of `handle_channel_buttons`. Nothing is
assumed on where the last accepted action lies, so a sequence that starts
after the 32-bit clock wrapped is covered. -/
theorem accepted_polls_spaced (cfg : Config) (envs : List Env) (s : State) :
    (((volume_poll_log envs s).map Prod.fst).Pairwise (fun a b => a ≤ b) →
      (accepted_times (volume_poll_log envs s)).Pairwise (fun a b => a + 200 ≤ b))
    ∧ (((channel_poll_log cfg envs s).map Prod.fst).Pairwise (fun a b => a ≤ b) →
      (accepted_times (channel_poll_log cfg envs s)).Pairwise (fun a b => a + 200 ≤ b)) := by
  constructor
  · intro hmono
    refine poll_log_spacing_from_any handle_volume_buttons
      (fun env st => u32 (env.millis st.tick))
      (fun env st => decide ((handle_volume_buttons env st).app ≠ st.app))
      (fun st => st.app.m_last_volume_button_time)
      (fun env st => u32_lt _) (fun env st => handle_volume_buttons_last env st)
      ?_ envs s hmono
    intro env st hacc
    rcases handle_volume_buttons_cases env st with h | h
    · simp [h] at hacc
    · exact h
  · intro hmono
    refine poll_log_spacing_from_any (handle_channel_buttons cfg)
      (fun env st => u32 (env.millis st.tick))
      (fun env st => decide ((handle_channel_buttons cfg env st).app ≠ st.app
        ∨ (handle_channel_buttons cfg env st).trace ≠ st.trace))
      (fun st => st.app.m_last_channel_button_time)
      (fun env st => u32_lt _) (fun env st => handle_channel_buttons_last cfg env st)
      ?_ envs s hmono
    intro env st hacc
    rcases handle_channel_buttons_cases cfg env st with h | h
    · simp [h.1, h.2] at hacc
    · exact h

/-- Witness of C13 amended: from the constructed state the volume polls at
300, 400, 600 and 900 ms accept at 300, 600 and 900 (the poll at 400 is
suppressed); on channel 5 the channel polls at 300, 350 and 500 ms accept at
300 and 500; and with the last volume action at `2^32 - 100`, before the clock
wrapped, the volume polls at 150, 200 and 400 ms accept at 150 and 400. -/
theorem accepted_polls_spaced_witness :
    (((volume_poll_log polls_volume_sample state_constructed).map Prod.fst).Pairwise
        (fun a b => a ≤ b)
      ∧ ((volume_poll_log polls_after_wrap state_before_wrap).map Prod.fst).Pairwise
        (fun a b => a ≤ b)
      ∧ accepted_times (volume_poll_log polls_volume_sample state_constructed)
          = [300, 600, 900]
      ∧ accepted_times (channel_poll_log sample_config polls_channel_sample state_channel_five)
          = [300, 500]
      ∧ accepted_times (volume_poll_log polls_after_wrap state_before_wrap) = [150, 400])
    ∧ (accepted_times (volume_poll_log polls_volume_sample state_constructed)).Pairwise
        (fun a b => a + 200 ≤ b)
    ∧ (accepted_times
        (channel_poll_log sample_config polls_channel_sample state_channel_five)).Pairwise
        (fun a b => a + 200 ≤ b)
    ∧ (accepted_times (volume_poll_log polls_after_wrap state_before_wrap)).Pairwise
        (fun a b => a + 200 ≤ b) :=
  ⟨⟨by decide, by decide, by decide, by decide, by decide⟩,
    (accepted_polls_spaced sample_config polls_volume_sample state_constructed).1
      (by decide),
    (accepted_polls_spaced sample_config polls_channel_sample state_channel_five).2
      (by decide),
    (accepted_polls_spaced sample_config polls_after_wrap state_before_wrap).1
      (by decide)⟩

/-! ## Claim on the volume step and its clamp -/

/-- C10: for every volume level `v` in `[0,100]`, a poll of
`handle_volume_buttons` outside the debounce window yields level
`min (v + 5) 100` when only volume-up reads active, and level `max (v - 5) 0`
when only volume-down reads active and `v` is 0 or at least 5; and the
resulting level is within `[0,100]` for any button readings and any clock value
when `v` is 0 or at least 5 (and also at the levels 1 to 4, unless the poll is
an accepted one with only volume-down active). Every level the coordinator
reaches from the constructor's 50 is 0 or at least 5, being a multiple of 5, so
the three statements hold at every level it can hold. -/
theorem volume_poll_steps_and_clamps (env : Env) (s : State)
    (hv : s.app.m_volume_level ≤ 100) :
    (¬ u32 ((u32 (env.millis s.tick) : Int) - s.app.m_last_volume_button_time)
          < VOLUME_BUTTON_DEBOUNCE_MS →
        env.digitalRead (s.tick + 1) Pin.GPIO_VOLUME_UP_BUTTON = true →
        env.digitalRead (s.tick + 2) Pin.GPIO_VOLUME_DOWN_BUTTON = false →
        (handle_volume_buttons env s).app.m_volume_level
          = min (s.app.m_volume_level + 5) 100)
    ∧ (s.app.m_volume_level = 0 ∨ 5 ≤ s.app.m_volume_level →
        ¬ u32 ((u32 (env.millis s.tick) : Int) - s.app.m_last_volume_button_time)
          < VOLUME_BUTTON_DEBOUNCE_MS →
        env.digitalRead (s.tick + 1) Pin.GPIO_VOLUME_UP_BUTTON = false →
        env.digitalRead (s.tick + 2) Pin.GPIO_VOLUME_DOWN_BUTTON = true →
        ((handle_volume_buttons env s).app.m_volume_level : Int)
          = max ((s.app.m_volume_level : Int) - 5) 0)
    ∧ (s.app.m_volume_level = 0 ∨ 5 ≤ s.app.m_volume_level
        ∨ u32 ((u32 (env.millis s.tick) : Int) - s.app.m_last_volume_button_time)
            < VOLUME_BUTTON_DEBOUNCE_MS
        ∨ env.digitalRead (s.tick + 1) Pin.GPIO_VOLUME_UP_BUTTON = true
        ∨ env.digitalRead (s.tick + 2) Pin.GPIO_VOLUME_DOWN_BUTTON = false →
        (handle_volume_buttons env s).app.m_volume_level ≤ 100)
    ∧ (∀ (cfg : Config) (envs : List Env) (s0 : State),
        s0.app = Application.init cfg →
        s.app.m_volume_level = (volume_polls envs s0).app.m_volume_level →
        s.app.m_volume_level = 0 ∨ 5 ≤ s.app.m_volume_level) := by
  have hup := volume_up_level (u32 (env.millis s.tick)) s.app hv
  refine ⟨?_, ?_, ?_, ?_⟩
  · intro hns hu hd
    rw [handle_volume_buttons_app, if_neg hns, if_pos hu, if_neg (by simp [hd])]
    exact hup
  · intro h5 hns hu hd
    rw [handle_volume_buttons_app, if_neg hns, if_neg (by simp [hu]), if_pos hd,
      volume_down_level _ _ (by omega) h5]
    omega
  · intro h
    by_cases h5 : s.app.m_volume_level = 0 ∨ 5 ≤ s.app.m_volume_level
    · exact handle_volume_buttons_level_le env s hv h5
    · have hlow : (volume_up (u32 (env.millis s.tick)) s.app).m_volume_level ≤ 100 := by
        rw [hup]; omega
      rw [handle_volume_buttons_app]
      by_cases hs : u32 ((u32 (env.millis s.tick) : Int) - s.app.m_last_volume_button_time)
          < VOLUME_BUTTON_DEBOUNCE_MS
      · rw [if_pos hs]; exact hv
      · rw [if_neg hs]
        by_cases hu : env.digitalRead (s.tick + 1) Pin.GPIO_VOLUME_UP_BUTTON = true
        · rw [if_pos hu]
          split
          · rw [volume_down_level _ _ (by omega) (by rw [hup]; omega), hup]
            omega
          · exact hlow
        · rw [if_neg hu]
          have hd : env.digitalRead (s.tick + 2) Pin.GPIO_VOLUME_DOWN_BUTTON = false := by
            rcases h with h | h | h | h | h
            · exact absurd (Or.inl h) h5
            · exact absurd (Or.inr h) h5
            · exact absurd h hs
            · exact absurd h hu
            · exact h
          rw [if_neg (by simp [hd])]
          exact hv
  · intro cfg envs s0 hinit hreach
    have hok : level_ok (volume_polls envs s0).app.m_volume_level :=
      volume_polls_level_ok envs s0
        (by rw [hinit]; exact ⟨(by decide : 5 ∣ 50), (by decide : 50 ≤ 100)⟩)
    rw [← hreach] at hok
    obtain ⟨hd, _⟩ := hok
    omega

/-- Witness of C10: from the constructed state (level 50, last action at 0)
the poll at 300 ms gives 55 with volume-up and 45 with volume-down; at level
100 the poll with volume-up leaves 100. -/
theorem volume_poll_steps_and_clamps_witness :
    (state_constructed.app.m_volume_level ≤ 100
      ∧ ¬ u32 ((u32 ((env_volume_up_at 300).millis state_constructed.tick) : Int)
            - state_constructed.app.m_last_volume_button_time) < VOLUME_BUTTON_DEBOUNCE_MS
      ∧ (state_constructed.app.m_volume_level = 0 ∨ 5 ≤ state_constructed.app.m_volume_level)
      ∧ state_at_maxima.app.m_volume_level ≤ 100)
    ∧ (handle_volume_buttons (env_volume_up_at 300) state_constructed).app.m_volume_level
        = min (50 + 5) 100
    ∧ ((handle_volume_buttons (env_volume_down_at 300) state_constructed).app.m_volume_level
        : Int) = max ((50 : Int) - 5) 0
    ∧ (handle_volume_buttons (env_volume_down_at 300) state_constructed).app.m_volume_level
        ≤ 100
    ∧ (handle_volume_buttons env_up_buttons state_at_maxima).app.m_volume_level
        = min (100 + 5) 100 :=
  ⟨⟨by decide, by decide, by decide, by decide⟩,
    (volume_poll_steps_and_clamps (env_volume_up_at 300) state_constructed (by decide)).1
      (by decide) (by decide) (by decide),
    (volume_poll_steps_and_clamps (env_volume_down_at 300) state_constructed (by decide)).2.1
      (by decide) (by decide) (by decide) (by decide),
    (volume_poll_steps_and_clamps (env_volume_down_at 300) state_constructed (by decide)).2.2.1
      (Or.inr (Or.inl (by decide))),
    (volume_poll_steps_and_clamps env_up_buttons state_at_maxima (by decide)).1
      (by decide) (by decide) (by decide)⟩


end WalkieTalkie
